import Mathlib

/-!
Verification development for the treetrace layer (src/layer.rs).

The layer reacts to three host notifications (`on_new_span`, `on_event`,
`on_close`), keeps a per-span metadata side table (`SpanInfo`, stored in the
host's extension slot, here modelled as a map from span id), and an atomic
"last rendered span" cursor (`last_span`, sentinel 0 meaning none).  The
recursive tree-diff printer `print_span` decides which ancestors to reprint.

The output sink is modelled at the granularity of the individual `write!`
calls of the source: each call appends one structured element `W` to the
output log, paired with a success flag drawn from a failure oracle
`fails : Nat → Bool` (the n-th write fails when `fails n` is true).  The
source discards every write result (`drop(write!(..))`), which is reflected
here by the success flag never feeding back into control flow or state.
-/

namespace Treetrace

/-- Severity levels of an event, as matched in `print_event`. -/
inductive Level where
  | trace
  | debug
  | info
  | warn
  | error
deriving DecidableEq

/-- One `write!`/`writeln!` call on the sink.  Each constructor corresponds to
one write site in `layer.rs`; span-header writes additionally carry the id of
the span being rendered (implicit at the write site, since all formatted data
there comes from that span). -/
inductive W where
  /-- The optional timestamp write (content is wall-clock, out of scope). -/
  | ts : W
  /-- The indent + `target::name` header write; `indent = depth * 2`. -/
  | spanHead (sid indent : Nat) (path div name : String) : W
  /-- The inline value of the first field named "message". -/
  | spanMsg (space val : String) : W
  /-- The first-time marker (blank when `new`, caret otherwise) and the
  4-hex display id write. -/
  | spanArrow (sid : Nat) (new : Bool) (dispId : Nat) : W
  /-- One span field on its own continuation line; `gap = depth * 2 + 22`. -/
  | fieldMulti (gap : Nat) (k v : String) : W
  /-- One span field appended inline. -/
  | fieldInline (k v : String) : W
  /-- The final `writeln!` terminating a line. -/
  | line : W
  /-- The "Failed to read span info" error line. -/
  | errLine : W
  /-- The indent + severity write of an event line; `indent = depth * 2`. -/
  | eventHead (indent : Nat) (level : Level) : W
  /-- One value of an event field named "message". -/
  | eventMsg (val : String) : W
  /-- One event field on its own continuation line; `gap = depth * 2 + 22`. -/
  | eventFieldMulti (gap : Nat) (k v : String) : W
  /-- One event field appended inline. -/
  | eventFieldInline (k v : String) : W
deriving DecidableEq

/-- Host-side span handle (`SpanRef`): the span's id (`Id::into_u64`)
together with the ids of its ancestors, nearest parent first.  This is the
read-only parent chain the host registry resolves per call. -/
structure SpanRef where
  sid : Nat
  ancestors : List Nat
deriving DecidableEq

/-- `SpanRef::parent`. -/
def SpanRef.parent (s : SpanRef) : Option SpanRef :=
  match s.ancestors with
  | [] => none
  | p :: rest => some (SpanRef.mk p rest)

/-- The leaf-to-root chain of span ids (the span itself first). -/
def SpanRef.chain (s : SpanRef) : List Nat := s.sid :: s.ancestors

/-- `span_scope(id).count()` / `event_scope(event).count()`: the length of
the scope iterator, the span itself included. -/
def SpanRef.count (s : SpanRef) : Nat := s.chain.length

/-- The host metadata reads used by `print_span`: `span.metadata().target()`
and `span.name()`, keyed by span id. -/
structure Host where
  target : Nat → String
  name : Nat → String

/-- The per-span record `SpanInfo` of `layer.rs`.  `date_time` models the
presence of the optional creation timestamp (`Option<DateTime>` is `Some`
exactly when timestamps are enabled); `new` is the one-shot unseen flag. -/
structure SpanInfo where
  id : Nat
  date_time : Bool
  records : List (String × String)
  new : Bool
deriving DecidableEq

/-- `SpanInfo::new(attrs, timestamp)`: the randomly drawn display id and the
captured records are inputs here (the random draw and the field visitation
are host-side effects); the unseen flag starts true. -/
def SpanInfo.fresh (records : List (String × String)) (disp_id : Nat)
    (timestamp : Bool) : SpanInfo :=
  { id := disp_id, date_time := timestamp, records := records, new := true }

/-- The extension side table: span id to its `SpanInfo`, if recorded. -/
abbrev Infos := Nat → Option SpanInfo

/-- Clearing the unseen flag (the effect of `info.new.swap(false)`). -/
def clearFlag (i : SpanInfo) : SpanInfo := { i with new := false }

/-- `info.new.swap(false, ..)` on the record of `sid`. -/
def Infos.clearNew (m : Infos) (sid : Nat) : Infos :=
  fun x => if x = sid then (m x).map clearFlag else m x

/-- `span.extensions_mut().insert(..)`. -/
def Infos.insert (m : Infos) (sid : Nat) (i : SpanInfo) : Infos :=
  fun x => if x = sid then some i else m x

/-- The sink log: each attempted write paired with its success flag. -/
abbrev Out := List (W × Bool)

/-- One `drop(write!(..))`: the write is always attempted; whether it
succeeds is decided by the oracle, and the result is discarded. -/
def emit (fails : Nat → Bool) (out : Out) (w : W) : Out :=
  out ++ [(w, !fails out.length)]

/-- A sequence of writes, in source order. -/
def emits (fails : Nat → Bool) (out : Out) (ws : List W) : Out :=
  ws.foldl (emit fails) out

/-- The attempted-write trace of a sink log. -/
def Out.ws (out : Out) : List W := out.map Prod.fst

/-- The saturating decrement `depth.max(1) - 1` used at all three depth
subtraction sites of `layer.rs`. -/
def clamped_dec (d : Nat) : Nat := d.max 1 - 1

/-- The writes of one span's own header line, lines 247-305 of `layer.rs`:
optional timestamp, indent + `target::name`, the first "message" field
inline, the marker + display id, then every non-"message" field (inline or
on continuation lines), then the line terminator. -/
def span_line (H : Host) (sid depth : Nat) (info : SpanInfo) (new : Bool)
    (multiline : Bool) : List W :=
  let path := H.target sid
  let name := H.name sid
  let div := if path = "" ∨ name = "" then "" else "::"
  (if info.date_time then [W.ts] else [])
    ++ [W.spanHead sid (depth * 2) path div name]
    ++ (match info.records.find? (fun kv => kv.1 == "message") with
        | some kv => [W.spanMsg (if path = "" ∧ name = "" then "" else " ") kv.2]
        | none => [])
    ++ [W.spanArrow sid new info.id]
    ++ info.records.filterMap (fun kv =>
        if kv.1 == "message" then none
        else some (if multiline then W.fieldMulti (depth * 2 + 22) kv.1 kv.2
          else W.fieldInline kv.1 kv.2))
    ++ [W.line]

/-- `print_span` of `layer.rs`.  The `Option<&SpanRef>` argument is passed as
the leaf-to-root id chain (`[]` for `None`); per level it fetches the span's
metadata (error line when absent), consumes the unseen flag, skips when the
span was the last rendered and was already seen, and otherwise renders the
parent first and then this span's line. -/
def print_span (H : Host) (fails : Nat → Bool) (infos : Infos) (out : Out)
    (last_span : Nat) (depth : Nat) (chain : List Nat) (multiline : Bool) :
    Infos × Out :=
  match chain with
  | [] => (infos, out)
  | sid :: parents =>
    match infos sid with
    | none => (infos, emit fails out W.errLine)
    | some info =>
      let new := info.new
      let infos1 := infos.clearNew sid
      if sid ≠ last_span ∨ new = true then
        let r := print_span H fails infos1 out last_span (clamped_dec depth)
          parents multiline
        (r.1, emits fails r.2 (span_line H sid depth info new multiline))
      else (infos1, out)

/-- An event notification: severity, captured fields, and the innermost
current span (with its resolved ancestor chain), if any. -/
structure Event where
  level : Level
  fields : List (String × String)
  scope : Option SpanRef
deriving DecidableEq

/-- The writes of one event line, `print_event` of `layer.rs`: optional
timestamp, indent + severity, every field named "message" inline, then every
other field (inline or on continuation lines), then the terminator. -/
def event_line (ev : Event) (depth : Nat) (multiline timestamp : Bool) :
    List W :=
  (if timestamp then [W.ts] else [])
    ++ [W.eventHead (depth * 2) ev.level]
    ++ ev.fields.filterMap (fun kv =>
        if kv.1 == "message" then some (W.eventMsg kv.2) else none)
    ++ ev.fields.filterMap (fun kv =>
        if kv.1 == "message" then none
        else some (if multiline then W.eventFieldMulti (depth * 2 + 22) kv.1 kv.2
          else W.eventFieldInline kv.1 kv.2))
    ++ [W.line]

/-- `print_event` as a sink operation. -/
def print_event (fails : Nat → Bool) (out : Out) (ev : Event) (depth : Nat)
    (multiline timestamp : Bool) : Out :=
  emits fails out (event_line ev depth multiline timestamp)

/-- The `Layer` state: the three construction flags, the atomic cursor
`last_span` (0 = none), and the per-span extension table. -/
structure Layer where
  log_spans : Bool
  multiline : Bool
  timestamp : Bool
  last_span : Nat
  infos : Infos

/-- `Builder::build`: the cursor starts at the sentinel 0 and no span has
metadata yet. -/
def build (log_spans multiline timestamp : Bool) : Layer :=
  { log_spans := log_spans, multiline := multiline, timestamp := timestamp,
    last_span := 0, infos := fun _ => none }

/-- `ctx.span(..)` chain of an optional span. -/
def scopeChain : Option SpanRef → List Nat
  | none => []
  | some s => s.chain

/-- `current_span.map_or(0, |s| s.id().into_u64())`. -/
def scopeId : Option SpanRef → Nat
  | none => 0
  | some s => s.sid

/-- `ctx.event_scope(event).map_or(0, count)`. -/
def eventDepth (ev : Event) : Nat :=
  match ev.scope with
  | none => 0
  | some s => s.count

/-- The insert-if-absent step of `on_new_span`: `if
span.extensions().get::<SpanInfo>().is_none() { .. insert(SpanInfo::new(..)) }`. -/
def ensure (m : Infos) (sid : Nat) (records : List (String × String))
    (disp_id : Nat) (timestamp : Bool) : Infos :=
  match m sid with
  | some _ => m
  | none => m.insert sid (SpanInfo.fresh records disp_id timestamp)

/-- `on_new_span`: insert the metadata if absent; when span-entry logging is
enabled, additionally run the tree-diff printer rooted at this span and set
the cursor to its id. -/
def on_new_span (H : Host) (fails : Nat → Bool) (l : Layer) (out : Out)
    (span : Option SpanRef) (records : List (String × String))
    (disp_id : Nat) : Layer × Out :=
  match span with
  | none => (l, out)
  | some s =>
    let infos := ensure l.infos s.sid records disp_id l.timestamp
    if l.log_spans then
      let r := print_span H fails infos out l.last_span (clamped_dec s.count)
        s.chain l.multiline
      ({ l with infos := r.1, last_span := s.sid }, r.2)
    else ({ l with infos := infos }, out)

/-- `on_event`: run the tree-diff printer rooted at the event's current span,
set the cursor to that span's id (0 if none), then render the event line at
the raw scope depth. -/
def on_event (H : Host) (fails : Nat → Bool) (l : Layer) (out : Out)
    (ev : Event) : Layer × Out :=
  let depth := eventDepth ev
  let r := print_span H fails l.infos out l.last_span (clamped_dec depth)
    (scopeChain ev.scope) l.multiline
  ({ l with infos := r.1, last_span := scopeId ev.scope },
    print_event fails r.2 ev depth l.multiline l.timestamp)

/-- `ctx.span(&id).and_then(|s| s.parent()).map_or(0, |p| p.id().into_u64())`. -/
def parentId : Option SpanRef → Nat
  | none => 0
  | some s =>
    match s.parent with
    | none => 0
    | some p => p.sid

/-- `on_close`: if the closing span was the last rendered, retire the cursor
to its parent (0 when parentless or unknown); no writes happen. -/
def on_close (l : Layer) (out : Out) (id : Nat) (span : Option SpanRef) :
    Layer × Out :=
  if l.last_span = id then ({ l with last_span := parentId span }, out)
  else (l, out)

/-- One host notification, for whole-lifetime statements. -/
inductive Op where
  | newSpan (span : Option SpanRef) (records : List (String × String))
      (disp_id : Nat)
  | event (ev : Event)
  | close (id : Nat) (span : Option SpanRef)

/-- Dispatch one notification. -/
def runOp (H : Host) (fails : Nat → Bool) (st : Layer × Out) : Op → Layer × Out
  | .newSpan s r d => on_new_span H fails st.1 st.2 s r d
  | .event ev => on_event H fails st.1 st.2 ev
  | .close id s => on_close st.1 st.2 id s

/-- Run a sequence of notifications. -/
def runOps (H : Host) (fails : Nat → Bool) (st : Layer × Out)
    (ops : List Op) : Layer × Out :=
  ops.foldl (runOp H fails) st

/-- Is `w` the header write of span `sid`? -/
def isHeadOf (sid : Nat) : W → Bool
  | W.spanHead s _ _ _ _ => s == sid
  | _ => false

/-- How many header lines of span `sid` a trace contains. -/
def headerCount (sid : Nat) (ws : List W) : Nat :=
  ws.countP (isHeadOf sid)

/-- Is `w` the first-time (blank) marker write of span `sid`? -/
def isNewMarker (sid : Nat) : W → Bool
  | W.spanArrow s n _ => s == sid && n
  | _ => false

/-- How many first-time markers of span `sid` a trace contains. -/
def newMarkers (sid : Nat) (ws : List W) : Nat :=
  ws.countP (isNewMarker sid)

/-- The remaining first-time budget of span `sid`: 1 while its metadata is
absent (it would be created unseen) or still unseen, 0 once consumed. -/
def budget (infos : Infos) (sid : Nat) : Nat :=
  match infos sid with
  | none => 1
  | some i => if i.new then 1 else 0

/-- The inline span message carried by a write, if any. -/
def msgVal : W → Option String
  | W.spanMsg _ v => some v
  | _ => none

/-- The trailing span field carried by a write, if any. -/
def fieldKV : W → Option (String × String)
  | W.fieldMulti _ k v => some (k, v)
  | W.fieldInline k v => some (k, v)
  | _ => none

/-! ### Basic sink-log lemmas -/

theorem emit_ws (fails : Nat → Bool) (out : Out) (w : W) :
    (emit fails out w).map Prod.fst = out.map Prod.fst ++ [w] := by
  simp [emit]

theorem emits_ws (fails : Nat → Bool) (ws : List W) :
    ∀ out : Out, (emits fails out ws).map Prod.fst = out.map Prod.fst ++ ws := by
  induction ws with
  | nil => intro out; simp [emits]
  | cons w ws ih =>
    intro out
    show (emits fails (emit fails out w) ws).map Prod.fst = _
    rw [ih, emit_ws]
    simp

/-! ### Side-table access lemmas -/

theorem clearNew_self (m : Infos) (sid : Nat) :
    (m.clearNew sid) sid = (m sid).map clearFlag := by
  simp [Infos.clearNew]

theorem clearNew_other (m : Infos) (sid x : Nat) (h : x ≠ sid) :
    (m.clearNew sid) x = m x := by
  simp [Infos.clearNew, h]

theorem clearFlag_idem (i : SpanInfo) : clearFlag (clearFlag i) = clearFlag i := rfl

theorem clearNew_isSome (m : Infos) (sid x : Nat) :
    ((m.clearNew sid) x).isSome = (m x).isSome := by
  by_cases h : x = sid
  · subst h; rw [clearNew_self]; cases m x <;> simp [clearFlag]
  · rw [clearNew_other m sid x h]

/-! ### Unfolding lemmas for the tree-diff printer -/

theorem print_span_nil (H : Host) (fails : Nat → Bool) (infos : Infos)
    (out : Out) (last_span depth : Nat) (ml : Bool) :
    print_span H fails infos out last_span depth [] ml = (infos, out) := rfl

theorem print_span_cons_none (H : Host) (fails : Nat → Bool) (infos : Infos)
    (out : Out) (last_span depth : Nat) (sid : Nat) (parents : List Nat)
    (ml : Bool) (h : infos sid = none) :
    print_span H fails infos out last_span depth (sid :: parents) ml =
      (infos, emit fails out W.errLine) := by
  simp [print_span, h]

theorem print_span_cons_render (H : Host) (fails : Nat → Bool) (infos : Infos)
    (out : Out) (last_span depth : Nat) (sid : Nat) (parents : List Nat)
    (ml : Bool) (info : SpanInfo) (h : infos sid = some info)
    (hc : sid ≠ last_span ∨ info.new = true) :
    print_span H fails infos out last_span depth (sid :: parents) ml =
      ((print_span H fails (infos.clearNew sid) out last_span
          (clamped_dec depth) parents ml).1,
        emits fails (print_span H fails (infos.clearNew sid) out last_span
          (clamped_dec depth) parents ml).2
          (span_line H sid depth info info.new ml)) := by
  simp only [print_span, h]
  rw [if_pos hc]

theorem print_span_cons_skip (H : Host) (fails : Nat → Bool) (infos : Infos)
    (out : Out) (last_span depth : Nat) (sid : Nat) (parents : List Nat)
    (ml : Bool) (info : SpanInfo) (h : infos sid = some info)
    (h1 : sid = last_span) (h2 : info.new = false) :
    print_span H fails infos out last_span depth (sid :: parents) ml =
      (infos.clearNew sid, out) := by
  simp only [print_span, h]
  rw [if_neg]
  simp [h1, h2]

theorem print_span_cons_render_fst (H : Host) (fails : Nat → Bool)
    (infos : Infos) (out : Out) (last_span depth : Nat) (sid : Nat)
    (parents : List Nat) (ml : Bool) (info : SpanInfo)
    (h : infos sid = some info) (hc : sid ≠ last_span ∨ info.new = true) :
    (print_span H fails infos out last_span depth (sid :: parents) ml).1 =
      (print_span H fails (infos.clearNew sid) out last_span
        (clamped_dec depth) parents ml).1 := by
  rw [print_span_cons_render _ _ _ _ _ _ _ _ _ _ h hc]

theorem print_span_cons_render_snd (H : Host) (fails : Nat → Bool)
    (infos : Infos) (out : Out) (last_span depth : Nat) (sid : Nat)
    (parents : List Nat) (ml : Bool) (info : SpanInfo)
    (h : infos sid = some info) (hc : sid ≠ last_span ∨ info.new = true) :
    (print_span H fails infos out last_span depth (sid :: parents) ml).2 =
      emits fails (print_span H fails (infos.clearNew sid) out last_span
        (clamped_dec depth) parents ml).2
        (span_line H sid depth info info.new ml) := by
  rw [print_span_cons_render _ _ _ _ _ _ _ _ _ _ h hc]

theorem print_span_cons_skip_snd (H : Host) (fails : Nat → Bool)
    (infos : Infos) (out : Out) (last_span depth : Nat) (sid : Nat)
    (parents : List Nat) (ml : Bool) (info : SpanInfo)
    (h : infos sid = some info) (h1 : sid = last_span)
    (h2 : info.new = false) :
    (print_span H fails infos out last_span depth (sid :: parents) ml).2 =
      out := by
  rw [print_span_cons_skip _ _ _ _ _ _ _ _ _ _ h h1 h2]

/-! ### Structural lemmas for the tree-diff printer -/

theorem print_span_infos_indep (H : Host) (chain : List Nat) :
    ∀ (fails fails' : Nat → Bool) (infos : Infos) (out out' : Out)
      (last_span depth : Nat) (ml : Bool),
    (print_span H fails infos out last_span depth chain ml).1 =
      (print_span H fails' infos out' last_span depth chain ml).1 := by
  induction chain with
  | nil => intro fails fails' infos out out' last_span depth ml; rfl
  | cons sid parents ih =>
    intro fails fails' infos out out' last_span depth ml
    cases h : infos sid with
    | none => rw [print_span_cons_none _ _ _ _ _ _ _ _ _ h,
        print_span_cons_none _ _ _ _ _ _ _ _ _ h]
    | some info =>
      by_cases hc : sid ≠ last_span ∨ info.new = true
      · rw [print_span_cons_render _ _ _ _ _ _ _ _ _ _ h hc,
          print_span_cons_render _ _ _ _ _ _ _ _ _ _ h hc]
        exact ih ..
      · push_neg at hc
        rw [print_span_cons_skip _ _ _ _ _ _ _ _ _ _ h hc.1
            (Bool.not_eq_true _ ▸ hc.2),
          print_span_cons_skip _ _ _ _ _ _ _ _ _ _ h hc.1
            (Bool.not_eq_true _ ▸ hc.2)]

theorem print_span_ws_congr (H : Host) (chain : List Nat) :
    ∀ (fails fails' : Nat → Bool) (infos : Infos) (out out' : Out)
      (last_span depth : Nat) (ml : Bool),
    out.map Prod.fst = out'.map Prod.fst →
    (print_span H fails infos out last_span depth chain ml).2.map Prod.fst =
      (print_span H fails' infos out' last_span depth chain ml).2.map Prod.fst := by
  induction chain with
  | nil => intro fails fails' infos out out' last_span depth ml h; exact h
  | cons sid parents ih =>
    intro fails fails' infos out out' last_span depth ml h
    cases hi : infos sid with
    | none =>
      rw [print_span_cons_none _ _ _ _ _ _ _ _ _ hi,
        print_span_cons_none _ _ _ _ _ _ _ _ _ hi]
      simp only [emit_ws, h]
    | some info =>
      by_cases hc : sid ≠ last_span ∨ info.new = true
      · rw [print_span_cons_render _ _ _ _ _ _ _ _ _ _ hi hc,
          print_span_cons_render _ _ _ _ _ _ _ _ _ _ hi hc]
        simp only [emits_ws]
        rw [ih _ _ _ _ _ _ _ _ h]
      · push_neg at hc
        rw [print_span_cons_skip _ _ _ _ _ _ _ _ _ _ hi hc.1
            (Bool.not_eq_true _ ▸ hc.2),
          print_span_cons_skip _ _ _ _ _ _ _ _ _ _ hi hc.1
            (Bool.not_eq_true _ ▸ hc.2)]
        exact h

theorem print_span_ws_mono (H : Host) (chain : List Nat) :
    ∀ (fails : Nat → Bool) (infos : Infos) (out : Out)
      (last_span depth : Nat) (ml : Bool),
    ∃ tl, (print_span H fails infos out last_span depth chain ml).2.map Prod.fst =
      out.map Prod.fst ++ tl := by
  induction chain with
  | nil =>
    intro fails infos out last_span depth ml
    exact ⟨[], by rw [print_span_nil]; simp⟩
  | cons sid parents ih =>
    intro fails infos out last_span depth ml
    cases hi : infos sid with
    | none =>
      rw [print_span_cons_none _ _ _ _ _ _ _ _ _ hi]
      exact ⟨[W.errLine], by simp [emit_ws]⟩
    | some info =>
      by_cases hc : sid ≠ last_span ∨ info.new = true
      · rw [print_span_cons_render _ _ _ _ _ _ _ _ _ _ hi hc]
        obtain ⟨tl, htl⟩ := ih fails (infos.clearNew sid) out last_span
          (clamped_dec depth) ml
        exact ⟨tl ++ span_line H sid depth info info.new ml,
          by simp only [emits_ws, htl, List.append_assoc]⟩
      · push_neg at hc
        rw [print_span_cons_skip _ _ _ _ _ _ _ _ _ _ hi hc.1
            (Bool.not_eq_true _ ▸ hc.2)]
        exact ⟨[], by simp⟩

theorem print_span_infos_not_mem (H : Host) (chain : List Nat) :
    ∀ (fails : Nat → Bool) (infos : Infos) (out : Out)
      (last_span depth : Nat) (ml : Bool) (sid : Nat), sid ∉ chain →
    (print_span H fails infos out last_span depth chain ml).1 sid = infos sid := by
  induction chain with
  | nil => intro fails infos out last_span depth ml sid _; rfl
  | cons h parents ih =>
    intro fails infos out last_span depth ml sid hmem
    have hne : sid ≠ h := fun e => hmem (e ▸ List.mem_cons_self h parents)
    have hnt : sid ∉ parents := fun e => hmem (List.mem_cons_of_mem h e)
    cases hi : infos h with
    | none => rw [print_span_cons_none _ _ _ _ _ _ _ _ _ hi]
    | some info =>
      by_cases hc : h ≠ last_span ∨ info.new = true
      · rw [print_span_cons_render _ _ _ _ _ _ _ _ _ _ hi hc]
        show (print_span H fails (infos.clearNew h) out last_span
          (clamped_dec depth) parents ml).1 sid = infos sid
        rw [ih _ _ _ _ _ _ _ hnt, clearNew_other _ _ _ hne]
      · push_neg at hc
        rw [print_span_cons_skip _ _ _ _ _ _ _ _ _ _ hi hc.1
            (Bool.not_eq_true _ ▸ hc.2)]
        exact clearNew_other _ _ _ hne

theorem print_span_infos_or (H : Host) (chain : List Nat) :
    ∀ (fails : Nat → Bool) (infos : Infos) (out : Out)
      (last_span depth : Nat) (ml : Bool) (sid : Nat),
    (print_span H fails infos out last_span depth chain ml).1 sid = infos sid ∨
    (print_span H fails infos out last_span depth chain ml).1 sid =
      (infos sid).map clearFlag := by
  induction chain with
  | nil => intro fails infos out last_span depth ml sid; exact Or.inl rfl
  | cons h parents ih =>
    intro fails infos out last_span depth ml sid
    cases hi : infos h with
    | none => rw [print_span_cons_none _ _ _ _ _ _ _ _ _ hi]; exact Or.inl rfl
    | some info =>
      have hstep : ∀ r : Infos, r = infos.clearNew h →
          (r sid = infos sid ∨ r sid = (infos sid).map clearFlag) := by
        intro r hr
        by_cases he : sid = h
        · subst he; right; rw [hr, clearNew_self]
        · left; rw [hr, clearNew_other _ _ _ he]
      by_cases hc : h ≠ last_span ∨ info.new = true
      · rw [print_span_cons_render _ _ _ _ _ _ _ _ _ _ hi hc]
        show (print_span H fails (infos.clearNew h) out last_span
          (clamped_dec depth) parents ml).1 sid = infos sid ∨ _
        rcases ih fails (infos.clearNew h) out last_span (clamped_dec depth)
            ml sid with h1 | h1
        · rw [h1] at *
          exact hstep _ rfl
        · rw [h1]
          rcases hstep (infos.clearNew h) rfl with h2 | h2
          · rw [h2]
            by_cases he : (infos sid).isSome
            · right; rfl
            · left
              cases ho : infos sid with
              | none => simp
              | some i => rw [ho] at he; simp at he
          · rw [h2]
            right
            cases infos sid <;> simp [clearFlag]
      · push_neg at hc
        rw [print_span_cons_skip _ _ _ _ _ _ _ _ _ _ hi hc.1
            (Bool.not_eq_true _ ▸ hc.2)]
        exact hstep _ rfl

theorem print_span_infos_head (H : Host) (fails : Nat → Bool) (infos : Infos)
    (out : Out) (last_span depth : Nat) (sid : Nat) (parents : List Nat)
    (ml : Bool) (i : SpanInfo) (h : infos sid = some i) :
    (print_span H fails infos out last_span depth (sid :: parents) ml).1 sid =
      some (clearFlag i) := by
  have h1 : (infos.clearNew sid) sid = some (clearFlag i) := by
    rw [clearNew_self, h]; rfl
  by_cases hc : sid ≠ last_span ∨ i.new = true
  · rw [print_span_cons_render _ _ _ _ _ _ _ _ _ _ h hc]
    show (print_span H fails (infos.clearNew sid) out last_span
      (clamped_dec depth) parents ml).1 sid = some (clearFlag i)
    rcases print_span_infos_or H parents fails (infos.clearNew sid) out
        last_span (clamped_dec depth) ml sid with h2 | h2
    · rw [h2, h1]
    · rw [h2, h1]; rfl
  · push_neg at hc
    rw [print_span_cons_skip _ _ _ _ _ _ _ _ _ _ h hc.1
        (Bool.not_eq_true _ ▸ hc.2)]
    exact h1

/-! ### Line-level classification and counting lemmas -/

theorem mem_span_fields (depth : Nat) (ml : Bool)
    (records : List (String × String)) (w : W)
    (h : w ∈ records.filterMap (fun kv =>
        if kv.1 == "message" then none
        else some (if ml then W.fieldMulti (depth * 2 + 22) kv.1 kv.2
          else W.fieldInline kv.1 kv.2))) :
    ∃ k v, w = W.fieldMulti (depth * 2 + 22) k v ∨ w = W.fieldInline k v := by
  rcases List.mem_filterMap.1 h with ⟨kv, _, hf⟩
  by_cases hm : (kv.1 == "message") = true
  · rw [if_pos hm] at hf
    exact absurd hf (by simp)
  · rw [if_neg hm] at hf
    refine ⟨kv.1, kv.2, ?_⟩
    cases ml with
    | true => left; rw [← Option.some_inj.1 hf]; rfl
    | false => right; rw [← Option.some_inj.1 hf]; rfl

theorem mem_span_line (H : Host) (s depth : Nat) (i : SpanInfo) (n ml : Bool)
    (w : W) (h : w ∈ span_line H s depth i n ml) :
    w = W.ts
    ∨ w = W.spanHead s (depth * 2) (H.target s)
        (if H.target s = "" ∨ H.name s = "" then "" else "::") (H.name s)
    ∨ (∃ sp v, w = W.spanMsg sp v)
    ∨ w = W.spanArrow s n i.id
    ∨ (∃ k v, w = W.fieldMulti (depth * 2 + 22) k v ∨ w = W.fieldInline k v)
    ∨ w = W.line := by
  simp only [span_line, List.append_assoc, List.mem_append] at h
  rcases h with h | h | h | h | h | h
  · left
    split at h <;> simp at h
    exact h
  · right; left
    simpa using h
  · right; right; left
    rcases hf : i.records.find? (fun kv => kv.1 == "message") with _ | kv <;>
      rw [hf] at h
    · simp at h
    · exact ⟨_, kv.2, by simpa using h⟩
  · right; right; right; left
    simpa using h
  · right; right; right; right; left
    exact mem_span_fields depth ml i.records w h
  · right; right; right; right; right
    simpa using h

theorem spanHead_mem_span_line (H : Host) (s2 depth : Nat) (i : SpanInfo)
    (n ml : Bool) (s d : Nat) (p dv nm : String)
    (h : W.spanHead s d p dv nm ∈ span_line H s2 depth i n ml) :
    s = s2 ∧ d = depth * 2 := by
  rcases mem_span_line H s2 depth i n ml _ h with
    h' | h' | ⟨sp, v, h'⟩ | h' | ⟨k, v, h' | h'⟩ | h' <;>
    first
    | (cases h'; exact ⟨rfl, rfl⟩)
    | simp at h'

theorem mem_event_line (ev : Event) (depth : Nat) (ml ts : Bool) (w : W)
    (h : w ∈ event_line ev depth ml ts) :
    w = W.ts ∨ w = W.eventHead (depth * 2) ev.level
    ∨ (∃ v, w = W.eventMsg v)
    ∨ (∃ k v, w = W.eventFieldMulti (depth * 2 + 22) k v
        ∨ w = W.eventFieldInline k v)
    ∨ w = W.line := by
  simp only [event_line, List.append_assoc, List.mem_append] at h
  rcases h with h | h | h | h | h
  · left
    split at h <;> simp at h
    exact h
  · right; left
    simpa using h
  · right; right; left
    rcases List.mem_filterMap.1 h with ⟨kv, _, hf⟩
    by_cases hm : (kv.1 == "message") = true
    · rw [if_pos hm] at hf
      exact ⟨kv.2, by rw [← Option.some_inj.1 hf]⟩
    · rw [if_neg hm] at hf
      exact absurd hf (by simp)
  · right; right; right; left
    rcases List.mem_filterMap.1 h with ⟨kv, _, hf⟩
    by_cases hm : (kv.1 == "message") = true
    · rw [if_pos hm] at hf
      exact absurd hf (by simp)
    · rw [if_neg hm] at hf
      refine ⟨kv.1, kv.2, ?_⟩
      cases ml with
      | true => left; rw [← Option.some_inj.1 hf]; rfl
      | false => right; rw [← Option.some_inj.1 hf]; rfl
  · right; right; right; right
    simpa using h

theorem headerCount_append (sid : Nat) (xs ys : List W) :
    headerCount sid (xs ++ ys) = headerCount sid xs + headerCount sid ys :=
  List.countP_append _ _ _

theorem newMarkers_append (sid : Nat) (xs ys : List W) :
    newMarkers sid (xs ++ ys) = newMarkers sid xs + newMarkers sid ys :=
  List.countP_append _ _ _

theorem headerCount_event_line (sid : Nat) (ev : Event) (depth : Nat)
    (ml ts : Bool) : headerCount sid (event_line ev depth ml ts) = 0 := by
  refine List.countP_eq_zero.2 ?_
  intro w hw
  rcases mem_event_line ev depth ml ts w hw with
    h | h | ⟨v, h⟩ | ⟨k, v, h | h⟩ | h <;> subst h <;> simp [isHeadOf]

theorem newMarkers_event_line (sid : Nat) (ev : Event) (depth : Nat)
    (ml ts : Bool) : newMarkers sid (event_line ev depth ml ts) = 0 := by
  refine List.countP_eq_zero.2 ?_
  intro w hw
  rcases mem_event_line ev depth ml ts w hw with
    h | h | ⟨v, h⟩ | ⟨k, v, h | h⟩ | h <;> subst h <;> simp [isNewMarker]

theorem headerCount_span_line (sid : Nat) (H : Host) (s depth : Nat)
    (i : SpanInfo) (n ml : Bool) :
    headerCount sid (span_line H s depth i n ml) = if s = sid then 1 else 0 := by
  unfold headerCount span_line
  simp only [List.countP_append]
  have c1 : List.countP (isHeadOf sid)
      (if i.date_time then [W.ts] else []) = 0 := by
    split <;> simp [isHeadOf]
  have c2 : List.countP (isHeadOf sid)
      [W.spanHead s (depth * 2) (H.target s)
        (if H.target s = "" ∨ H.name s = "" then "" else "::") (H.name s)] =
      if s = sid then 1 else 0 := by
    rw [List.countP_cons, List.countP_nil]
    have : isHeadOf sid (W.spanHead s (depth * 2) (H.target s)
        (if H.target s = "" ∨ H.name s = "" then "" else "::") (H.name s)) =
        (s == sid) := rfl
    rw [this]
    by_cases he : s = sid <;> simp [he]
  have c3 : List.countP (isHeadOf sid)
      (match i.records.find? (fun kv => kv.1 == "message") with
        | some kv => [W.spanMsg
            (if H.target s = "" ∧ H.name s = "" then "" else " ") kv.2]
        | none => []) = 0 := by
    cases hf : i.records.find? (fun kv => kv.1 == "message") <;>
      simp [hf, isHeadOf]
  have c4 : List.countP (isHeadOf sid) [W.spanArrow s n i.id] = 0 := by
    simp [isHeadOf]
  have c5 : List.countP (isHeadOf sid)
      (i.records.filterMap (fun kv =>
        if kv.1 == "message" then none
        else some (if ml then W.fieldMulti (depth * 2 + 22) kv.1 kv.2
          else W.fieldInline kv.1 kv.2))) = 0 := by
    refine List.countP_eq_zero.2 ?_
    intro w hw
    rcases mem_span_fields depth ml i.records w hw with ⟨k, v, h | h⟩ <;>
      subst h <;> simp [isHeadOf]
  have c6 : List.countP (isHeadOf sid) [W.line] = 0 := by simp [isHeadOf]
  rw [c1, c2, c3, c4, c5, c6]
  omega

theorem newMarkers_span_line (sid : Nat) (H : Host) (s depth : Nat)
    (i : SpanInfo) (n ml : Bool) :
    newMarkers sid (span_line H s depth i n ml) =
      if s = sid ∧ n = true then 1 else 0 := by
  unfold newMarkers span_line
  simp only [List.countP_append]
  have c1 : List.countP (isNewMarker sid)
      (if i.date_time then [W.ts] else []) = 0 := by
    split <;> simp [isNewMarker]
  have c2 : List.countP (isNewMarker sid)
      [W.spanHead s (depth * 2) (H.target s)
        (if H.target s = "" ∨ H.name s = "" then "" else "::") (H.name s)] = 0 := by
    simp [isNewMarker]
  have c3 : List.countP (isNewMarker sid)
      (match i.records.find? (fun kv => kv.1 == "message") with
        | some kv => [W.spanMsg
            (if H.target s = "" ∧ H.name s = "" then "" else " ") kv.2]
        | none => []) = 0 := by
    cases hf : i.records.find? (fun kv => kv.1 == "message") <;>
      simp [hf, isNewMarker]
  have c4 : List.countP (isNewMarker sid) [W.spanArrow s n i.id] =
      if s = sid ∧ n = true then 1 else 0 := by
    rw [List.countP_cons, List.countP_nil]
    have : isNewMarker sid (W.spanArrow s n i.id) = (s == sid && n) := rfl
    rw [this]
    by_cases he : s = sid <;> cases n <;> simp [he]
  have c5 : List.countP (isNewMarker sid)
      (i.records.filterMap (fun kv =>
        if kv.1 == "message" then none
        else some (if ml then W.fieldMulti (depth * 2 + 22) kv.1 kv.2
          else W.fieldInline kv.1 kv.2))) = 0 := by
    refine List.countP_eq_zero.2 ?_
    intro w hw
    rcases mem_span_fields depth ml i.records w hw with ⟨k, v, h | h⟩ <;>
      subst h <;> simp [isNewMarker]
  have c6 : List.countP (isNewMarker sid) [W.line] = 0 := by simp [isNewMarker]
  rw [c1, c2, c3, c4, c5, c6]
  omega

/-! ### Printer-level counting and membership lemmas -/

theorem headerCount_print_span_not_mem (H : Host) (chain : List Nat) :
    ∀ (fails : Nat → Bool) (infos : Infos) (out : Out)
      (last_span depth : Nat) (ml : Bool) (sid : Nat), sid ∉ chain →
    headerCount sid
        ((print_span H fails infos out last_span depth chain ml).2.map Prod.fst) =
      headerCount sid (out.map Prod.fst) := by
  induction chain with
  | nil => intro fails infos out last_span depth ml sid _; rfl
  | cons h parents ih =>
    intro fails infos out last_span depth ml sid hmem
    have hne : h ≠ sid := fun e => hmem (e ▸ List.mem_cons_self h parents)
    have hnt : sid ∉ parents := fun e => hmem (List.mem_cons_of_mem h e)
    cases hi : infos h with
    | none =>
      rw [print_span_cons_none _ _ _ _ _ _ _ _ _ hi, emit_ws,
        headerCount_append]
      have : headerCount sid [W.errLine] = 0 := by
        simp [headerCount, isHeadOf]
      rw [this]
      omega
    | some info =>
      by_cases hc : h ≠ last_span ∨ info.new = true
      · rw [print_span_cons_render _ _ _ _ _ _ _ _ _ _ hi hc]
        show headerCount sid ((emits fails _ _).map Prod.fst) = _
        rw [emits_ws, headerCount_append, ih _ _ _ _ _ _ _ hnt,
          headerCount_span_line, if_neg hne]
        omega
      · push_neg at hc
        rw [print_span_cons_skip _ _ _ _ _ _ _ _ _ _ hi hc.1
            (Bool.not_eq_true _ ▸ hc.2)]

theorem spanHead_mem_print_span (H : Host) (chain : List Nat) :
    ∀ (fails : Nat → Bool) (infos : Infos) (out : Out)
      (last_span depth : Nat) (ml : Bool) (s d : Nat) (p dv nm : String),
    W.spanHead s d p dv nm ∈
        (print_span H fails infos out last_span depth chain ml).2.map Prod.fst →
    W.spanHead s d p dv nm ∈ out.map Prod.fst ∨ s ∈ chain := by
  induction chain with
  | nil => intro fails infos out last_span depth ml s d p dv nm h; exact Or.inl h
  | cons h parents ih =>
    intro fails infos out last_span depth ml s d p dv nm hmem
    cases hi : infos h with
    | none =>
      rw [print_span_cons_none _ _ _ _ _ _ _ _ _ hi, emit_ws] at hmem
      rcases List.mem_append.1 hmem with hmem | hmem
      · exact Or.inl hmem
      · simp at hmem
    | some info =>
      by_cases hc : h ≠ last_span ∨ info.new = true
      · rw [print_span_cons_render _ _ _ _ _ _ _ _ _ _ hi hc] at hmem
        rw [show ((print_span H fails (infos.clearNew h) out last_span
            (clamped_dec depth) parents ml).1,
            emits fails (print_span H fails (infos.clearNew h) out last_span
              (clamped_dec depth) parents ml).2
              (span_line H h depth info info.new ml)).2 =
            emits fails (print_span H fails (infos.clearNew h) out last_span
              (clamped_dec depth) parents ml).2
              (span_line H h depth info info.new ml) from rfl,
          emits_ws] at hmem
        rcases List.mem_append.1 hmem with hmem | hmem
        · rcases ih _ _ _ _ _ _ _ _ _ _ _ hmem with h1 | h1
          · exact Or.inl h1
          · exact Or.inr (List.mem_cons_of_mem h h1)
        · have := (spanHead_mem_span_line H h depth info info.new ml s d
            p dv nm hmem).1
          exact Or.inr (this ▸ List.mem_cons_self h parents)
      · push_neg at hc
        rw [print_span_cons_skip _ _ _ _ _ _ _ _ _ _ hi hc.1
            (Bool.not_eq_true _ ▸ hc.2)] at hmem
        exact Or.inl hmem

/-! ### Unseen-budget lemmas -/

theorem budget_clearNew_other (m : Infos) (x sid : Nat) (h : sid ≠ x) :
    budget (m.clearNew x) sid = budget m sid := by
  unfold budget
  rw [clearNew_other _ _ _ h]

theorem budget_clearNew_self (m : Infos) (sid : Nat) (i : SpanInfo)
    (h : m sid = some i) : budget (m.clearNew sid) sid = 0 := by
  unfold budget
  rw [clearNew_self, h]
  rfl

theorem budget_clearNew_le (m : Infos) (x sid : Nat) :
    budget (m.clearNew x) sid ≤ budget m sid := by
  by_cases he : sid = x
  · subst he
    cases h : m sid with
    | none =>
      unfold budget
      rw [clearNew_self, h]
      simp
    | some i =>
      rw [budget_clearNew_self m sid i h]
      exact Nat.zero_le _
  · rw [budget_clearNew_other m x sid he]

theorem nm_print_span (H : Host) (chain : List Nat) :
    ∀ (fails : Nat → Bool) (infos : Infos) (out : Out)
      (last_span depth : Nat) (ml : Bool) (sid : Nat),
    newMarkers sid
        ((print_span H fails infos out last_span depth chain ml).2.map Prod.fst)
      + budget (print_span H fails infos out last_span depth chain ml).1 sid ≤
    newMarkers sid (out.map Prod.fst) + budget infos sid := by
  induction chain with
  | nil => intro fails infos out last_span depth ml sid; exact Nat.le_refl _
  | cons h parents ih =>
    intro fails infos out last_span depth ml sid
    cases hi : infos h with
    | none =>
      rw [print_span_cons_none _ _ _ _ _ _ _ _ _ hi]
      show newMarkers sid ((emit fails out W.errLine).map Prod.fst)
        + budget infos sid ≤ _
      rw [emit_ws, newMarkers_append]
      have : newMarkers sid [W.errLine] = 0 := by simp [newMarkers, isNewMarker]
      omega
    | some info =>
      have hbud : (if h = sid ∧ info.new = true then 1 else 0)
          + budget (infos.clearNew h) sid ≤ budget infos sid := by
        by_cases he : h = sid
        · subst he
          rw [budget_clearNew_self infos h info hi]
          unfold budget
          rw [hi]
          cases hn : info.new <;> simp [hn]
        · rw [budget_clearNew_other infos h sid fun e => he e.symm]
          simp [he]
      by_cases hc : h ≠ last_span ∨ info.new = true
      · rw [print_span_cons_render _ _ _ _ _ _ _ _ _ _ hi hc]
        show newMarkers sid ((emits fails
            (print_span H fails (infos.clearNew h) out last_span
              (clamped_dec depth) parents ml).2
            (span_line H h depth info info.new ml)).map Prod.fst)
          + budget (print_span H fails (infos.clearNew h) out last_span
              (clamped_dec depth) parents ml).1 sid ≤ _
        rw [emits_ws, newMarkers_append, newMarkers_span_line]
        have hrec := ih fails (infos.clearNew h) out last_span
          (clamped_dec depth) ml sid
        omega
      · push_neg at hc
        rw [print_span_cons_skip _ _ _ _ _ _ _ _ _ _ hi hc.1
            (Bool.not_eq_true _ ▸ hc.2)]
        show newMarkers sid (out.map Prod.fst) + budget (infos.clearNew h) sid ≤ _
        have := budget_clearNew_le infos h sid
        omega

/-! ### Notification-level lemmas -/

theorem budget_ensure (m : Infos) (x sid : Nat)
    (r : List (String × String)) (d : Nat) (t : Bool) :
    budget (ensure m x r d t) sid = budget m sid := by
  unfold ensure
  cases hx : m x with
  | some i => rfl
  | none =>
    by_cases he : sid = x
    · subst he
      unfold budget Infos.insert
      rw [hx]
      simp [SpanInfo.fresh]
    · unfold budget Infos.insert
      simp [he]

theorem ensure_get_other (m : Infos) (x sid : Nat)
    (r : List (String × String)) (d : Nat) (t : Bool) (h : sid ≠ x) :
    (ensure m x r d t) sid = m sid := by
  unfold ensure
  cases m x with
  | some i => rfl
  | none => unfold Infos.insert; simp [h]

theorem ensure_get_some (m : Infos) (x : Nat) (i : SpanInfo)
    (r : List (String × String)) (d : Nat) (t : Bool) (h : m x = some i) :
    ensure m x r d t = m := by
  unfold ensure
  rw [h]

theorem on_new_span_none (H : Host) (fails : Nat → Bool) (l : Layer)
    (out : Out) (records : List (String × String)) (disp_id : Nat) :
    on_new_span H fails l out none records disp_id = (l, out) := rfl

theorem on_new_span_some (H : Host) (fails : Nat → Bool) (l : Layer)
    (out : Out) (s : SpanRef) (records : List (String × String))
    (disp_id : Nat) :
    on_new_span H fails l out (some s) records disp_id =
      if l.log_spans = true then
        ({ l with
            infos := (print_span H fails
              (ensure l.infos s.sid records disp_id l.timestamp) out
              l.last_span (clamped_dec s.count) s.chain l.multiline).1,
            last_span := s.sid },
          (print_span H fails
            (ensure l.infos s.sid records disp_id l.timestamp) out
            l.last_span (clamped_dec s.count) s.chain l.multiline).2)
      else ({ l with infos := ensure l.infos s.sid records disp_id l.timestamp },
        out) := rfl

theorem on_event_eq (H : Host) (fails : Nat → Bool) (l : Layer) (out : Out)
    (ev : Event) :
    on_event H fails l out ev =
      ({ l with
          infos := (print_span H fails l.infos out l.last_span
            (clamped_dec (eventDepth ev)) (scopeChain ev.scope) l.multiline).1,
          last_span := scopeId ev.scope },
        print_event fails (print_span H fails l.infos out l.last_span
          (clamped_dec (eventDepth ev)) (scopeChain ev.scope) l.multiline).2
          ev (eventDepth ev) l.multiline l.timestamp) := rfl

theorem nm_runOp (H : Host) (fails : Nat → Bool) (st : Layer × Out) (op : Op)
    (sid : Nat) :
    newMarkers sid ((runOp H fails st op).2.map Prod.fst)
      + budget (runOp H fails st op).1.infos sid ≤
    newMarkers sid (st.2.map Prod.fst) + budget st.1.infos sid := by
  cases op with
  | newSpan s r d =>
    show newMarkers sid ((on_new_span H fails st.1 st.2 s r d).2.map Prod.fst)
      + budget (on_new_span H fails st.1 st.2 s r d).1.infos sid ≤ _
    cases s with
    | none => exact Nat.le_refl _
    | some s =>
      rw [on_new_span_some]
      by_cases hl : st.1.log_spans = true
      · rw [if_pos hl]
        have h1 := nm_print_span H s.chain fails
          (ensure st.1.infos s.sid r d st.1.timestamp) st.2 st.1.last_span
          (clamped_dec s.count) st.1.multiline sid
        rw [budget_ensure] at h1
        exact h1
      · rw [if_neg hl]
        show newMarkers sid (st.2.map Prod.fst)
          + budget (ensure st.1.infos s.sid r d st.1.timestamp) sid ≤ _
        rw [budget_ensure]
  | event ev =>
    show newMarkers sid ((on_event H fails st.1 st.2 ev).2.map Prod.fst)
      + budget (on_event H fails st.1 st.2 ev).1.infos sid ≤ _
    rw [on_event_eq]
    show newMarkers sid ((print_event fails
        (print_span H fails st.1.infos st.2 st.1.last_span
          (clamped_dec (eventDepth ev)) (scopeChain ev.scope)
          st.1.multiline).2 ev (eventDepth ev) st.1.multiline
          st.1.timestamp).map Prod.fst)
      + budget (print_span H fails st.1.infos st.2 st.1.last_span
          (clamped_dec (eventDepth ev)) (scopeChain ev.scope)
          st.1.multiline).1 sid ≤ _
    unfold print_event
    have h1 := nm_print_span H (scopeChain ev.scope) fails st.1.infos st.2
      st.1.last_span (clamped_dec (eventDepth ev)) st.1.multiline sid
    rw [emits_ws, newMarkers_append, newMarkers_event_line]
    omega
  | close id s =>
    show newMarkers sid ((on_close st.1 st.2 id s).2.map Prod.fst)
      + budget (on_close st.1 st.2 id s).1.infos sid ≤ _
    unfold on_close
    by_cases h : st.1.last_span = id
    · rw [if_pos h]
    · rw [if_neg h]

theorem nm_runOps (H : Host) (fails : Nat → Bool) (ops : List Op) :
    ∀ (st : Layer × Out) (sid : Nat),
    newMarkers sid ((runOps H fails st ops).2.map Prod.fst)
      + budget (runOps H fails st ops).1.infos sid ≤
    newMarkers sid (st.2.map Prod.fst) + budget st.1.infos sid := by
  induction ops with
  | nil => intro st sid; exact Nat.le_refl _
  | cons op ops ih =>
    intro st sid
    show newMarkers sid ((runOps H fails (runOp H fails st op) ops).2.map
      Prod.fst) + _ ≤ _
    exact Nat.le_trans (ih (runOp H fails st op) sid) (nm_runOp H fails st op sid)

/-! ### Failure-independence of state and attempted writes -/

theorem on_event_fst_indep (H : Host) (fails fails' : Nat → Bool) (l : Layer)
    (out out' : Out) (ev : Event) :
    (on_event H fails l out ev).1 = (on_event H fails' l out' ev).1 := by
  rw [on_event_eq, on_event_eq]
  show ({ l with
      infos := (print_span H fails l.infos out l.last_span
        (clamped_dec (eventDepth ev)) (scopeChain ev.scope) l.multiline).1,
      last_span := scopeId ev.scope } : Layer) = _
  rw [print_span_infos_indep H (scopeChain ev.scope) fails fails' l.infos
    out out' l.last_span (clamped_dec (eventDepth ev)) l.multiline]

theorem on_event_ws_congr (H : Host) (fails fails' : Nat → Bool) (l : Layer)
    (out out' : Out) (ev : Event)
    (h : out.map Prod.fst = out'.map Prod.fst) :
    (on_event H fails l out ev).2.map Prod.fst =
      (on_event H fails' l out' ev).2.map Prod.fst := by
  rw [on_event_eq, on_event_eq]
  show (print_event fails (print_span H fails l.infos out l.last_span
      (clamped_dec (eventDepth ev)) (scopeChain ev.scope) l.multiline).2
      ev (eventDepth ev) l.multiline l.timestamp).map Prod.fst = _
  unfold print_event
  rw [emits_ws, emits_ws,
    print_span_ws_congr H (scopeChain ev.scope) fails fails' l.infos out out'
      l.last_span (clamped_dec (eventDepth ev)) l.multiline h]

theorem on_new_span_fst_indep (H : Host) (fails fails' : Nat → Bool)
    (l : Layer) (out out' : Out) (span : Option SpanRef)
    (records : List (String × String)) (disp_id : Nat) :
    (on_new_span H fails l out span records disp_id).1 =
      (on_new_span H fails' l out' span records disp_id).1 := by
  cases span with
  | none => rfl
  | some s =>
    rw [on_new_span_some, on_new_span_some]
    by_cases hl : l.log_spans = true
    · rw [if_pos hl, if_pos hl]
      show ({ l with
          infos := (print_span H fails
            (ensure l.infos s.sid records disp_id l.timestamp) out
            l.last_span (clamped_dec s.count) s.chain l.multiline).1,
          last_span := s.sid } : Layer) = _
      rw [print_span_infos_indep H s.chain fails fails'
        (ensure l.infos s.sid records disp_id l.timestamp) out out'
        l.last_span (clamped_dec s.count) l.multiline]
    · rw [if_neg hl, if_neg hl]

theorem on_new_span_ws_congr (H : Host) (fails fails' : Nat → Bool)
    (l : Layer) (out out' : Out) (span : Option SpanRef)
    (records : List (String × String)) (disp_id : Nat)
    (h : out.map Prod.fst = out'.map Prod.fst) :
    (on_new_span H fails l out span records disp_id).2.map Prod.fst =
      (on_new_span H fails' l out' span records disp_id).2.map Prod.fst := by
  cases span with
  | none => exact h
  | some s =>
    rw [on_new_span_some, on_new_span_some]
    by_cases hl : l.log_spans = true
    · rw [if_pos hl, if_pos hl]
      exact print_span_ws_congr H s.chain fails fails'
        (ensure l.infos s.sid records disp_id l.timestamp) out out'
        l.last_span (clamped_dec s.count) l.multiline h
    · rw [if_neg hl, if_neg hl]
      exact h

/-! ### Small component lemmas for the claim proofs -/

theorem clamped_dec_eq (d : Nat) : clamped_dec d = d - 1 := by
  unfold clamped_dec
  cases d with
  | zero => rfl
  | succ n => simp [Nat.max_def]

theorem on_event_last_span (H : Host) (fails : Nat → Bool) (l : Layer)
    (out : Out) (ev : Event) :
    (on_event H fails l out ev).1.last_span = scopeId ev.scope := rfl

theorem on_event_infos (H : Host) (fails : Nat → Bool) (l : Layer)
    (out : Out) (ev : Event) :
    (on_event H fails l out ev).1.infos =
      (print_span H fails l.infos out l.last_span
        (clamped_dec (eventDepth ev)) (scopeChain ev.scope) l.multiline).1 := rfl

theorem on_event_out (H : Host) (fails : Nat → Bool) (l : Layer) (out : Out)
    (ev : Event) :
    (on_event H fails l out ev).2 =
      print_event fails (print_span H fails l.infos out l.last_span
        (clamped_dec (eventDepth ev)) (scopeChain ev.scope) l.multiline).2
        ev (eventDepth ev) l.multiline l.timestamp := rfl

theorem on_event_multiline (H : Host) (fails : Nat → Bool) (l : Layer)
    (out : Out) (ev : Event) :
    (on_event H fails l out ev).1.multiline = l.multiline := rfl

theorem on_event_timestamp (H : Host) (fails : Nat → Bool) (l : Layer)
    (out : Out) (ev : Event) :
    (on_event H fails l out ev).1.timestamp = l.timestamp := rfl

theorem on_event_infos_flag (H : Host) (fails : Nat → Bool) (l : Layer)
    (out : Out) (ev : Event) (S : SpanRef) (info : SpanInfo)
    (hS : ev.scope = some S) (hi : l.infos S.sid = some info) :
    (on_event H fails l out ev).1.infos S.sid = some (clearFlag info) := by
  rw [on_event_infos]
  have hchain : scopeChain ev.scope = S.sid :: S.ancestors := by rw [hS]; rfl
  rw [hchain]
  exact print_span_infos_head H fails l.infos out l.last_span _ S.sid
    S.ancestors l.multiline info hi

theorem spanHead_self_mem_span_line (H : Host) (s depth : Nat) (i : SpanInfo)
    (n ml : Bool) :
    W.spanHead s (depth * 2) (H.target s)
      (if H.target s = "" ∨ H.name s = "" then "" else "::") (H.name s)
      ∈ span_line H s depth i n ml := by
  unfold span_line
  simp

/-! ### Claim theorems -/

/-- C3.  Close-time cursor correction: after `on_close(id)`, the cursor
equals the closed span's parent id (0 when parentless or unknown) when it
pointed at `id`, and is unchanged otherwise; the side table is untouched and
no output is written in either case. -/
theorem close_cursor_correction (l : Layer) (out : Out) (id : Nat)
    (span : Option SpanRef) :
    (on_close l out id span).1.last_span =
        (if l.last_span = id then parentId span else l.last_span)
    ∧ (on_close l out id span).2 = out
    ∧ (on_close l out id span).1.infos = l.infos
    ∧ parentId none = 0
    ∧ ∀ s : SpanRef, parentId (some s) =
        (match s.ancestors with
          | [] => 0
          | q :: _ => q) := by
  unfold on_close
  refine ⟨?_, ?_, ?_, rfl, ?_⟩
  · split <;> rfl
  · split <;> rfl
  · split <;> rfl
  · intro s
    rcases s with ⟨sid, anc⟩
    cases anc <;> rfl

/-- C5.  Unseen one-shot: the unseen flag of a freshly created record starts
true, and over any whole lifetime of notifications from a freshly built
layer, the first-time (blank) marker of any given span is rendered at most
once. -/
theorem unseen_one_shot :
    (∀ (records : List (String × String)) (disp_id : Nat) (t : Bool),
      (SpanInfo.fresh records disp_id t).new = true)
    ∧ ∀ (H : Host) (fails : Nat → Bool) (ls ml ts : Bool) (ops : List Op)
        (sid : Nat),
      newMarkers sid
        ((runOps H fails (build ls ml ts, []) ops).2.map Prod.fst) ≤ 1 := by
  refine ⟨fun _ _ _ => rfl, fun H fails ls ml ts ops sid => ?_⟩
  have h := nm_runOps H fails ops (build ls ml ts, []) sid
  have h0 : newMarkers sid
      (((build ls ml ts, ([] : Out))).2.map Prod.fst) = 0 := rfl
  have h1 : budget ((build ls ml ts, ([] : Out))).1.infos sid = 1 := rfl
  omega

/-- C6.  Depth saturation: the shared decrement `depth.max(1) - 1` equals
the saturating `depth - 1` on naturals and never underflows at 0; a root
span (ancestor chain of length 1) is rendered at indentation 0 both by
`on_event` and by a span-entry-logging `on_new_span`. -/
theorem depth_saturation :
    (∀ d : Nat, clamped_dec d = d - 1)
    ∧ clamped_dec 0 = 0
    ∧ (∀ (H : Host) (fails : Nat → Bool) (l : Layer) (out : Out) (ev : Event)
        (s : Nat) (info : SpanInfo),
        ev.scope = some (SpanRef.mk s []) → l.infos s = some info →
        (s ≠ l.last_span ∨ info.new = true) →
        W.spanHead s 0 (H.target s)
          (if H.target s = "" ∨ H.name s = "" then "" else "::") (H.name s)
          ∈ (on_event H fails l out ev).2.map Prod.fst)
    ∧ ∀ (H : Host) (fails : Nat → Bool) (l : Layer) (out : Out) (s : Nat)
        (records : List (String × String)) (disp_id : Nat) (info : SpanInfo),
        l.log_spans = true → l.infos s = some info →
        (s ≠ l.last_span ∨ info.new = true) →
        W.spanHead s 0 (H.target s)
          (if H.target s = "" ∨ H.name s = "" then "" else "::") (H.name s)
          ∈ (on_new_span H fails l out (some (SpanRef.mk s []))
              records disp_id).2.map Prod.fst := by
  refine ⟨clamped_dec_eq, rfl, ?_, ?_⟩
  · intro H fails l out ev s info hS hi hc
    rw [on_event_out]
    unfold print_event
    rw [emits_ws]
    refine List.mem_append.2 (Or.inl ?_)
    have hchain : scopeChain ev.scope = s :: [] := by rw [hS]; rfl
    rw [hchain, print_span_cons_render H fails l.infos out l.last_span _ s []
      l.multiline info hi hc]
    show W.spanHead s 0 _ _ _ ∈ (emits fails
      (print_span H fails (l.infos.clearNew s) out l.last_span _ []
        l.multiline).2 (span_line H s (clamped_dec (eventDepth ev)) info
        info.new l.multiline)).map Prod.fst
    rw [emits_ws, print_span_nil]
    refine List.mem_append.2 (Or.inr ?_)
    have hd : clamped_dec (eventDepth ev) = 0 := by
      unfold eventDepth
      rw [hS]
      rfl
    rw [hd]
    exact spanHead_self_mem_span_line H s 0 info info.new l.multiline
  · intro H fails l out s records disp_id info hlog hi hc
    rw [on_new_span_some, if_pos hlog]
    show W.spanHead s 0 _ _ _ ∈ ((print_span H fails
      (ensure l.infos s records disp_id l.timestamp) out l.last_span
      (clamped_dec (SpanRef.count (SpanRef.mk s []))) (SpanRef.mk s []).chain
      l.multiline).2).map Prod.fst
    have hens : ensure l.infos s records disp_id l.timestamp = l.infos :=
      ensure_get_some l.infos s info records disp_id l.timestamp hi
    rw [hens]
    have hch : (SpanRef.mk s []).chain = s :: [] := rfl
    rw [hch, print_span_cons_render H fails l.infos out l.last_span _ s []
      l.multiline info hi hc]
    show W.spanHead s 0 _ _ _ ∈ (emits fails
      (print_span H fails (l.infos.clearNew s) out l.last_span _ []
        l.multiline).2 (span_line H s
        (clamped_dec (SpanRef.count (SpanRef.mk s []))) info info.new
        l.multiline)).map Prod.fst
    rw [emits_ws, print_span_nil]
    refine List.mem_append.2 (Or.inr ?_)
    have hd : clamped_dec (SpanRef.count (SpanRef.mk s [])) = 0 := rfl
    rw [hd]
    exact spanHead_self_mem_span_line H s 0 info info.new l.multiline

/-- Witness for C6: a concrete root span rendered at indentation 0. -/
theorem depth_saturation_witness :
    W.spanHead 1 0 "app" "::" "work"
      ∈ (on_event (Host.mk (fun _ => "app") (fun _ => "work"))
          (fun _ => false)
          (Layer.mk false false false 0
            (fun x => if x = 1 then
              some (SpanInfo.mk 9 false [] true) else none))
          [] (Event.mk Level.info [] (some (SpanRef.mk 1 [])))).2.map
        Prod.fst :=
  depth_saturation.2.2.1 (Host.mk (fun _ => "app") (fun _ => "work"))
    (fun _ => false)
    (Layer.mk false false false 0
      (fun x => if x = 1 then some (SpanInfo.mk 9 false [] true) else none))
    [] (Event.mk Level.info [] (some (SpanRef.mk 1 []))) 1
    (SpanInfo.mk 9 false [] true) rfl rfl (Or.inl (by decide))

/-- C7.  Missing metadata: when a span's record is absent, `print_span`
renders exactly one visible error line, does not recurse into the ancestors,
leaves the side table unchanged, and returns normally. -/
theorem missing_metadata_error (H : Host) (fails : Nat → Bool) (infos : Infos)
    (out : Out) (last_span depth sid : Nat) (parents : List Nat) (ml : Bool)
    (h : infos sid = none) :
    print_span H fails infos out last_span depth (sid :: parents) ml =
      (infos, emit fails out W.errLine) :=
  print_span_cons_none H fails infos out last_span depth sid parents ml h

/-- Witness for C7: a concrete two-level chain with the leaf's record absent
renders exactly the single error line. -/
theorem missing_metadata_error_witness :
    print_span (Host.mk (fun _ => "app") (fun _ => "work"))
        (fun _ => false) (fun _ => none) [] 0 1 [5, 3] false =
      (fun _ => none, emit (fun _ => false) [] W.errLine) :=
  missing_metadata_error (Host.mk (fun _ => "app") (fun _ => "work"))
    (fun _ => false) (fun _ => none) [] 0 1 5 [3] false rfl

/-- C9.  Write-failure tolerance: the attempted writes and the resulting
layer state of `on_event`, `on_new_span` and `on_close` are the same under
every failure oracle (in particular the all-success one); failed writes are
silently dropped and never affect the rest of the record or the cursor. -/
theorem write_failure_tolerance (H : Host) (fails fails' : Nat → Bool)
    (l : Layer) (out out' : Out) (ev : Event) (span : Option SpanRef)
    (records : List (String × String)) (disp_id id : Nat)
    (h : out.map Prod.fst = out'.map Prod.fst) :
    ((on_event H fails l out ev).1 = (on_event H fails' l out' ev).1
      ∧ (on_event H fails l out ev).2.map Prod.fst =
          (on_event H fails' l out' ev).2.map Prod.fst)
    ∧ ((on_new_span H fails l out span records disp_id).1 =
          (on_new_span H fails' l out' span records disp_id).1
      ∧ (on_new_span H fails l out span records disp_id).2.map Prod.fst =
          (on_new_span H fails' l out' span records disp_id).2.map Prod.fst)
    ∧ (on_close l out id span).2 = out
    ∧ (on_close l out id span).1 = (on_close l out' id span).1 := by
  refine ⟨⟨on_event_fst_indep H fails fails' l out out' ev,
      on_event_ws_congr H fails fails' l out out' ev h⟩,
    ⟨on_new_span_fst_indep H fails fails' l out out' span records disp_id,
      on_new_span_ws_congr H fails fails' l out out' span records disp_id h⟩,
    ?_, ?_⟩
  · unfold on_close
    split <;> rfl
  · unfold on_close
    split <;> rfl

/-- Witness for C9: concrete event under a failing oracle produces the same
attempted writes and state as under the all-success oracle. -/
theorem write_failure_tolerance_witness :
    (on_event (Host.mk (fun _ => "app") (fun _ => "work")) (fun _ => true)
        (build true false true) [] (Event.mk Level.warn [("k", "v")] none)).1 =
      (on_event (Host.mk (fun _ => "app") (fun _ => "work")) (fun _ => false)
        (build true false true) [] (Event.mk Level.warn [("k", "v")] none)).1 :=
  (write_failure_tolerance (Host.mk (fun _ => "app") (fun _ => "work"))
    (fun _ => true) (fun _ => false) (build true false true) [] []
    (Event.mk Level.warn [("k", "v")] none) none [] 0 0 rfl).1.1

/-- C10.  Initial-cursor sentinel: a built layer starts with cursor 0 and an
empty side table; and with the cursor at the sentinel 0, a chain of nonzero
span ids whose records are all present is rendered in full — every span of
the chain gets a header line, since the skip condition cannot hold. -/
theorem initial_cursor_sentinel :
    (∀ ls ml ts : Bool, (build ls ml ts).last_span = 0
      ∧ (build ls ml ts).infos = fun _ => none)
    ∧ ∀ (H : Host) (fails : Nat → Bool) (ml : Bool) (chain : List Nat)
        (infos : Infos) (out : Out) (depth : Nat),
      (∀ sid ∈ chain, sid ≠ 0 ∧ (infos sid).isSome) →
      ∀ sid ∈ chain, ∃ (d : Nat) (pa dv na : String),
        W.spanHead sid d pa dv na ∈
          (print_span H fails infos out 0 depth chain ml).2.map Prod.fst := by
  refine ⟨fun ls ml ts => ⟨rfl, rfl⟩, ?_⟩
  intro H fails ml chain
  induction chain with
  | nil =>
    intro infos out depth hall sid hsid
    exact absurd hsid (List.not_mem_nil sid)
  | cons h t ih =>
    intro infos out depth hall sid hsid
    obtain ⟨hne0, hsome⟩ := hall h (List.mem_cons_self h t)
    obtain ⟨i, hi⟩ := Option.isSome_iff_exists.1 hsome
    have hc : h ≠ 0 ∨ i.new = true := Or.inl hne0
    rw [print_span_cons_render H fails infos out 0 depth h t ml i hi hc]
    show ∃ d pa dv na, W.spanHead sid d pa dv na ∈
      (emits fails (print_span H fails (infos.clearNew h) out 0
        (clamped_dec depth) t ml).2
        (span_line H h depth i i.new ml)).map Prod.fst
    rw [emits_ws]
    rcases List.mem_cons.1 hsid with he | ht
    · subst he
      exact ⟨depth * 2, H.target sid,
        (if H.target sid = "" ∨ H.name sid = "" then "" else "::"),
        H.name sid, List.mem_append.2
          (Or.inr (spanHead_self_mem_span_line H sid depth i i.new ml))⟩
    · have hall' : ∀ x ∈ t, x ≠ 0 ∧ ((infos.clearNew h) x).isSome := by
        intro x hx
        obtain ⟨hx0, hxs⟩ := hall x (List.mem_cons_of_mem h hx)
        exact ⟨hx0, by rw [clearNew_isSome]; exact hxs⟩
      obtain ⟨d, pa, dv, na, hmem⟩ := ih (infos.clearNew h) out
        (clamped_dec depth) hall' sid ht
      exact ⟨d, pa, dv, na, List.mem_append.2 (Or.inl hmem)⟩

/-- Witness for C10: with cursor 0, a concrete two-span chain with all
records present gets a header line for the deeper span. -/
theorem initial_cursor_sentinel_witness :
    ∃ (d : Nat) (pa dv na : String),
      W.spanHead 2 d pa dv na ∈
        (print_span (Host.mk (fun _ => "app") (fun _ => "work"))
          (fun _ => false)
          (fun x => if x = 1 then some (SpanInfo.mk 7 false [] true)
            else if x = 2 then some (SpanInfo.mk 8 false [] true) else none)
          [] 0 1 [1, 2] false).2.map Prod.fst :=
  initial_cursor_sentinel.2 (Host.mk (fun _ => "app") (fun _ => "work"))
    (fun _ => false) false [1, 2]
    (fun x => if x = 1 then some (SpanInfo.mk 7 false [] true)
      else if x = 2 then some (SpanInfo.mk 8 false [] true) else none)
    [] 1 (by decide) 2 (by decide)

/-- C1.  Dedup: after an event under span `S` (whose record is present), a
second consecutive event under the same `S` appends exactly its own event
line — the tree-diff printer emits nothing — and the cursor and the
(now-seen) record are unchanged, so the same holds for every further event
under `S`; moreover when the skip condition failed at the first event, that
first call rendered `S`'s header exactly once. -/
theorem dedup_consecutive_events (H : Host) (fails : Nat → Bool) (l : Layer)
    (out : Out) (ev1 ev2 : Event) (S : SpanRef) (info : SpanInfo)
    (h1 : ev1.scope = some S) (h2 : ev2.scope = some S)
    (hi : l.infos S.sid = some info) :
    (on_event H fails (on_event H fails l out ev1).1
        (on_event H fails l out ev1).2 ev2).2.map Prod.fst =
      (on_event H fails l out ev1).2.map Prod.fst
        ++ event_line ev2 S.count l.multiline l.timestamp
    ∧ (on_event H fails (on_event H fails l out ev1).1
        (on_event H fails l out ev1).2 ev2).1.last_span = S.sid
    ∧ (on_event H fails (on_event H fails l out ev1).1
        (on_event H fails l out ev1).2 ev2).1.infos S.sid =
        some (clearFlag info)
    ∧ (S.sid ∉ S.ancestors → (S.sid ≠ l.last_span ∨ info.new = true) →
        headerCount S.sid ((on_event H fails l out ev1).2.map Prod.fst) =
          headerCount S.sid (out.map Prod.fst) + 1) := by
  have hchain2 : scopeChain ev2.scope = S.sid :: S.ancestors := by
    rw [h2]; rfl
  have hid2 : scopeId ev2.scope = S.sid := by rw [h2]; rfl
  have hdep2 : eventDepth ev2 = S.count := by unfold eventDepth; rw [h2]
  have hinf1 : (on_event H fails l out ev1).1.infos S.sid =
      some (clearFlag info) :=
    on_event_infos_flag H fails l out ev1 S info h1 hi
  have hlast1 : (on_event H fails l out ev1).1.last_span = S.sid := by
    rw [on_event_last_span, h1]; rfl
  have hnew1 : (clearFlag info).new = false := rfl
  have hskip := print_span_cons_skip H fails
    (on_event H fails l out ev1).1.infos (on_event H fails l out ev1).2
    (on_event H fails l out ev1).1.last_span
    (clamped_dec (eventDepth ev2)) S.sid S.ancestors
    (on_event H fails l out ev1).1.multiline (clearFlag info)
    hinf1 hlast1.symm hnew1
  refine ⟨?_, ?_, ?_, ?_⟩
  · rw [on_event_out]
    unfold print_event
    rw [emits_ws, hchain2, hskip]
    show (on_event H fails l out ev1).2.map Prod.fst
      ++ event_line ev2 (eventDepth ev2)
        (on_event H fails l out ev1).1.multiline
        (on_event H fails l out ev1).1.timestamp = _
    rw [hdep2, on_event_multiline, on_event_timestamp]
  · rw [on_event_last_span, hid2]
  · rw [on_event_infos, hchain2, hskip]
    show ((on_event H fails l out ev1).1.infos.clearNew S.sid) S.sid = _
    rw [clearNew_self, hinf1]
    rfl
  · intro hna hcond
    rw [on_event_out]
    unfold print_event
    rw [emits_ws, headerCount_append, headerCount_event_line]
    have hchain1 : scopeChain ev1.scope = S.sid :: S.ancestors := by
      rw [h1]; rfl
    rw [hchain1, print_span_cons_render H fails l.infos out l.last_span
      (clamped_dec (eventDepth ev1)) S.sid S.ancestors l.multiline info
      hi hcond]
    show headerCount S.sid ((emits fails
      (print_span H fails (l.infos.clearNew S.sid) out l.last_span
        (clamped_dec (clamped_dec (eventDepth ev1))) S.ancestors
        l.multiline).2
      (span_line H S.sid (clamped_dec (eventDepth ev1)) info info.new
        l.multiline)).map Prod.fst) + 0 = _
    rw [emits_ws, headerCount_append,
      headerCount_print_span_not_mem H S.ancestors fails
        (l.infos.clearNew S.sid) out l.last_span
        (clamped_dec (clamped_dec (eventDepth ev1))) l.multiline S.sid hna,
      headerCount_span_line]
    simp

/-- Witness for C1: a concrete second event under the same span appends
exactly its own event line, and the first call rendered one header. -/
theorem dedup_consecutive_events_witness :
    ((on_event (Host.mk (fun _ => "app") (fun _ => "work")) (fun _ => false)
        (on_event (Host.mk (fun _ => "app") (fun _ => "work")) (fun _ => false)
          (Layer.mk false false false 0
            (fun x => if x = 1 then some (SpanInfo.mk 9 false [] true)
              else none))
          [] (Event.mk Level.info [] (some (SpanRef.mk 1 [])))).1
        (on_event (Host.mk (fun _ => "app") (fun _ => "work")) (fun _ => false)
          (Layer.mk false false false 0
            (fun x => if x = 1 then some (SpanInfo.mk 9 false [] true)
              else none))
          [] (Event.mk Level.info [] (some (SpanRef.mk 1 [])))).2
        (Event.mk Level.info [] (some (SpanRef.mk 1 [])))).2.map Prod.fst =
      (on_event (Host.mk (fun _ => "app") (fun _ => "work")) (fun _ => false)
        (Layer.mk false false false 0
          (fun x => if x = 1 then some (SpanInfo.mk 9 false [] true)
            else none))
        [] (Event.mk Level.info [] (some (SpanRef.mk 1 [])))).2.map Prod.fst
        ++ event_line (Event.mk Level.info [] (some (SpanRef.mk 1 [])))
          (SpanRef.mk 1 []).count false false)
    ∧ headerCount 1 ((on_event (Host.mk (fun _ => "app") (fun _ => "work"))
        (fun _ => false)
        (Layer.mk false false false 0
          (fun x => if x = 1 then some (SpanInfo.mk 9 false [] true)
            else none))
        [] (Event.mk Level.info [] (some (SpanRef.mk 1 [])))).2.map Prod.fst) =
      headerCount 1 (([] : Out).map Prod.fst) + 1 :=
  ⟨(dedup_consecutive_events (Host.mk (fun _ => "app") (fun _ => "work"))
      (fun _ => false)
      (Layer.mk false false false 0
        (fun x => if x = 1 then some (SpanInfo.mk 9 false [] true) else none))
      [] (Event.mk Level.info [] (some (SpanRef.mk 1 [])))
      (Event.mk Level.info [] (some (SpanRef.mk 1 []))) (SpanRef.mk 1 [])
      (SpanInfo.mk 9 false [] true) rfl rfl rfl).1,
    (dedup_consecutive_events (Host.mk (fun _ => "app") (fun _ => "work"))
      (fun _ => false)
      (Layer.mk false false false 0
        (fun x => if x = 1 then some (SpanInfo.mk 9 false [] true) else none))
      [] (Event.mk Level.info [] (some (SpanRef.mk 1 [])))
      (Event.mk Level.info [] (some (SpanRef.mk 1 []))) (SpanRef.mk 1 [])
      (SpanInfo.mk 9 false [] true) rfl rfl rfl).2.2.2 (by decide)
      (Or.inl (by decide))⟩

/-- C4.  `on_event` postcondition: the cursor becomes the innermost span's
id (0 when there is none); the attempted writes are the tree-diff printer's
writes followed by the event line; the event line is indented at
`depth * 2`; and any header the printer emits for the innermost span itself
is indented one level less, at `(depth - 1) * 2`. -/
theorem event_postcondition (H : Host) (fails : Nat → Bool) (l : Layer)
    (out : Out) (ev : Event) :
    (on_event H fails l out ev).1.last_span = scopeId ev.scope
    ∧ (on_event H fails l out ev).2.map Prod.fst =
        (print_span H fails l.infos out l.last_span
          (clamped_dec (eventDepth ev)) (scopeChain ev.scope)
          l.multiline).2.map Prod.fst
        ++ event_line ev (eventDepth ev) l.multiline l.timestamp
    ∧ W.eventHead (eventDepth ev * 2) ev.level
        ∈ event_line ev (eventDepth ev) l.multiline l.timestamp
    ∧ ∀ S : SpanRef, ev.scope = some S → S.sid ∉ S.ancestors →
        ∀ (d : Nat) (pa dv na : String),
          W.spanHead S.sid d pa dv na ∈
            (print_span H fails l.infos out l.last_span
              (clamped_dec (eventDepth ev)) (scopeChain ev.scope)
              l.multiline).2.map Prod.fst →
          W.spanHead S.sid d pa dv na ∈ out.map Prod.fst
            ∨ d = (eventDepth ev - 1) * 2 := by
  refine ⟨rfl, ?_, ?_, ?_⟩
  · rw [on_event_out]
    unfold print_event
    rw [emits_ws]
  · unfold event_line
    simp
  · intro S hS hna d pa dv na hmem
    have hchain : scopeChain ev.scope = S.sid :: S.ancestors := by
      rw [hS]; rfl
    rw [hchain] at hmem
    cases hi : l.infos S.sid with
    | none =>
      have heq : (print_span H fails l.infos out l.last_span
          (clamped_dec (eventDepth ev)) (S.sid :: S.ancestors)
          l.multiline).2 = emit fails out W.errLine :=
        congrArg Prod.snd (print_span_cons_none H fails l.infos out
          l.last_span (clamped_dec (eventDepth ev)) S.sid S.ancestors
          l.multiline hi)
      rw [heq, emit_ws] at hmem
      rcases List.mem_append.1 hmem with hm | hm
      · exact Or.inl hm
      · simp at hm
    | some info =>
      by_cases hc : S.sid ≠ l.last_span ∨ info.new = true
      · have heq : (print_span H fails l.infos out l.last_span
            (clamped_dec (eventDepth ev)) (S.sid :: S.ancestors)
            l.multiline).2 =
            emits fails (print_span H fails (l.infos.clearNew S.sid) out
              l.last_span (clamped_dec (clamped_dec (eventDepth ev)))
              S.ancestors l.multiline).2
              (span_line H S.sid (clamped_dec (eventDepth ev)) info
                info.new l.multiline) :=
          congrArg Prod.snd (print_span_cons_render H fails l.infos out
            l.last_span (clamped_dec (eventDepth ev)) S.sid S.ancestors
            l.multiline info hi hc)
        rw [heq, emits_ws] at hmem
        rcases List.mem_append.1 hmem with hm | hm
        · rcases spanHead_mem_print_span H S.ancestors fails
            (l.infos.clearNew S.sid) out l.last_span
            (clamped_dec (clamped_dec (eventDepth ev))) l.multiline
            S.sid d pa dv na hm with h' | h'
          · exact Or.inl h'
          · exact absurd h' hna
        · right
          have := (spanHead_mem_span_line H S.sid
            (clamped_dec (eventDepth ev)) info info.new l.multiline
            S.sid d pa dv na hm).2
          rw [this, clamped_dec_eq]
      · have heq : (print_span H fails l.infos out l.last_span
            (clamped_dec (eventDepth ev)) (S.sid :: S.ancestors)
            l.multiline).2 = out := by
          push_neg at hc
          exact congrArg Prod.snd (print_span_cons_skip H fails l.infos out
            l.last_span (clamped_dec (eventDepth ev)) S.sid S.ancestors
            l.multiline info hi hc.1 (Bool.not_eq_true _ ▸ hc.2))
        rw [heq] at hmem
        exact Or.inl hmem

/-- Witness for C4: the concrete innermost span's header is rendered at
depth `(1 - 1) * 2 = 0`. -/
theorem event_postcondition_witness :
    W.spanHead 1 0 "app" "::" "work" ∈ (([] : Out)).map Prod.fst
    ∨ (0 : Nat) = (eventDepth (Event.mk Level.info []
        (some (SpanRef.mk 1 []))) - 1) * 2 :=
  (event_postcondition (Host.mk (fun _ => "app") (fun _ => "work"))
      (fun _ => false)
      (Layer.mk false false false 0
        (fun x => if x = 1 then some (SpanInfo.mk 9 false [] true) else none))
      [] (Event.mk Level.info [] (some (SpanRef.mk 1 [])))).2.2.2
    (SpanRef.mk 1 []) rfl (by decide) 0 "app" "::" "work" (by decide)

theorem on_close_infos (l : Layer) (out : Out) (id : Nat)
    (s : Option SpanRef) : (on_close l out id s).1.infos = l.infos := by
  unfold on_close
  split <;> rfl

theorem on_close_out (l : Layer) (out : Out) (id : Nat) (s : Option SpanRef) :
    (on_close l out id s).2 = out := by
  unfold on_close
  split <;> rfl

theorem first_event_facts (H : Host) (fails : Nat → Bool) (l : Layer)
    (out : Out) (ev : Event) (a p : Nat) (rest : List Nat) (ia ip : SpanInfo)
    (ha : ev.scope = some (SpanRef.mk a (p :: rest)))
    (hia : l.infos a = some ia) (hianew : ia.new = true)
    (hip : l.infos p = some ip) (hipnew : ip.new = true)
    (hap : a ≠ p) (har : a ∉ rest) (hpr : p ∉ rest) :
    (on_event H fails l out ev).1.last_span = a
    ∧ (on_event H fails l out ev).1.infos p = some (clearFlag ip)
    ∧ (∀ x, x ∉ (a :: p :: rest) →
        (on_event H fails l out ev).1.infos x = l.infos x)
    ∧ headerCount p ((on_event H fails l out ev).2.map Prod.fst) =
        headerCount p (out.map Prod.fst) + 1
    ∧ headerCount a ((on_event H fails l out ev).2.map Prod.fst) =
        headerCount a (out.map Prod.fst) + 1 := by
  have hch : scopeChain ev.scope = a :: p :: rest := by rw [ha]; rfl
  have hca : a ≠ l.last_span ∨ ia.new = true := Or.inr hianew
  have hp' : (l.infos.clearNew a) p = some ip := by
    rw [clearNew_other _ _ _ (fun e => hap e.symm)]
    exact hip
  have hcp : p ≠ l.last_span ∨ ip.new = true := Or.inr hipnew
  have heq1 := print_span_cons_render H fails l.infos out l.last_span
    (clamped_dec (eventDepth ev)) a (p :: rest) l.multiline ia hia hca
  have heq2 := print_span_cons_render H fails (l.infos.clearNew a) out
    l.last_span (clamped_dec (clamped_dec (eventDepth ev))) p rest
    l.multiline ip hp' hcp
  have hsnd1 : (print_span H fails l.infos out l.last_span
      (clamped_dec (eventDepth ev)) (a :: p :: rest) l.multiline).2 =
      emits fails (print_span H fails (l.infos.clearNew a) out l.last_span
        (clamped_dec (clamped_dec (eventDepth ev))) (p :: rest)
        l.multiline).2
        (span_line H a (clamped_dec (eventDepth ev)) ia ia.new
          l.multiline) :=
    print_span_cons_render_snd H fails l.infos out l.last_span
      (clamped_dec (eventDepth ev)) a (p :: rest) l.multiline ia hia hca
  have hsnd2 : (print_span H fails (l.infos.clearNew a) out l.last_span
      (clamped_dec (clamped_dec (eventDepth ev))) (p :: rest)
      l.multiline).2 =
      emits fails (print_span H fails ((l.infos.clearNew a).clearNew p)
        out l.last_span
        (clamped_dec (clamped_dec (clamped_dec (eventDepth ev)))) rest
        l.multiline).2
        (span_line H p (clamped_dec (clamped_dec (eventDepth ev))) ip
          ip.new l.multiline) :=
    print_span_cons_render_snd H fails (l.infos.clearNew a) out l.last_span
      (clamped_dec (clamped_dec (eventDepth ev))) p rest l.multiline ip
      hp' hcp
  refine ⟨?_, ?_, ?_, ?_, ?_⟩
  · rw [on_event_last_span, ha]
    rfl
  · rw [on_event_infos, hch]
    rw [print_span_cons_render_fst H fails l.infos out l.last_span
      (clamped_dec (eventDepth ev)) a (p :: rest) l.multiline ia hia hca]
    exact print_span_infos_head H fails (l.infos.clearNew a) out l.last_span
      (clamped_dec (clamped_dec (eventDepth ev))) p rest l.multiline ip hp'
  · intro x hx
    rw [on_event_infos, hch, print_span_infos_not_mem H (a :: p :: rest)
      fails l.infos out l.last_span (clamped_dec (eventDepth ev))
      l.multiline x hx]
  · rw [on_event_out]
    unfold print_event
    rw [emits_ws, headerCount_append, headerCount_event_line, hch,
      hsnd1, emits_ws, headerCount_append, hsnd2, emits_ws,
      headerCount_append,
      headerCount_print_span_not_mem H rest fails
        ((l.infos.clearNew a).clearNew p) out l.last_span
        (clamped_dec (clamped_dec (clamped_dec (eventDepth ev))))
        l.multiline p hpr,
      headerCount_span_line, headerCount_span_line,
      if_pos (rfl : p = p), if_neg hap]
  · rw [on_event_out]
    unfold print_event
    rw [emits_ws, headerCount_append, headerCount_event_line, hch,
      hsnd1, emits_ws, headerCount_append, hsnd2, emits_ws,
      headerCount_append,
      headerCount_print_span_not_mem H rest fails
        ((l.infos.clearNew a).clearNew p) out l.last_span
        (clamped_dec (clamped_dec (clamped_dec (eventDepth ev))))
        l.multiline a har,
      headerCount_span_line, headerCount_span_line,
      if_pos (rfl : a = a), if_neg (Ne.symm hap)]

theorem second_event_trace (H : Host) (fails : Nat → Bool) (l2 : Layer)
    (out2 : Out) (ev : Event) (b p : Nat) (rest : List Nat)
    (jb jp : SpanInfo)
    (hb : ev.scope = some (SpanRef.mk b (p :: rest)))
    (hlast : l2.last_span = p)
    (hjb : l2.infos b = some jb)
    (hjp : l2.infos p = some jp) (hjpnew : jp.new = false)
    (hbp : b ≠ p) :
    (on_event H fails l2 out2 ev).2.map Prod.fst =
      out2.map Prod.fst
      ++ span_line H b (clamped_dec (eventDepth ev)) jb jb.new l2.multiline
      ++ event_line ev (eventDepth ev) l2.multiline l2.timestamp := by
  have hch : scopeChain ev.scope = b :: p :: rest := by rw [hb]; rfl
  have hcb : b ≠ l2.last_span ∨ jb.new = true := by
    left
    rw [hlast]
    exact hbp
  have hp' : (l2.infos.clearNew b) p = some jp := by
    rw [clearNew_other _ _ _ (fun e => hbp e.symm)]
    exact hjp
  have heq1 := print_span_cons_render H fails l2.infos out2 l2.last_span
    (clamped_dec (eventDepth ev)) b (p :: rest) l2.multiline jb hjb hcb
  have heq2 := print_span_cons_skip H fails (l2.infos.clearNew b) out2
    l2.last_span (clamped_dec (clamped_dec (eventDepth ev))) p rest
    l2.multiline jp hp' hlast.symm hjpnew
  have hsnd1 : (print_span H fails l2.infos out2 l2.last_span
      (clamped_dec (eventDepth ev)) (b :: p :: rest) l2.multiline).2 =
      emits fails (print_span H fails (l2.infos.clearNew b) out2
        l2.last_span (clamped_dec (clamped_dec (eventDepth ev)))
        (p :: rest) l2.multiline).2
        (span_line H b (clamped_dec (eventDepth ev)) jb jb.new
          l2.multiline) :=
    print_span_cons_render_snd H fails l2.infos out2 l2.last_span
      (clamped_dec (eventDepth ev)) b (p :: rest) l2.multiline jb hjb hcb
  have hsnd2 : (print_span H fails (l2.infos.clearNew b) out2 l2.last_span
      (clamped_dec (clamped_dec (eventDepth ev))) (p :: rest)
      l2.multiline).2 = out2 :=
    print_span_cons_skip_snd H fails (l2.infos.clearNew b) out2
      l2.last_span (clamped_dec (clamped_dec (eventDepth ev))) p rest
      l2.multiline jp hp' hlast.symm hjpnew
  rw [on_event_out]
  unfold print_event
  rw [emits_ws, hch, hsnd1, emits_ws, hsnd2]

/-- C2.  Divergence: with fresh siblings `A = ⟨a, p :: rest⟩` and
`B = ⟨b, p :: rest⟩` whose records are present (and `A`, `P` unseen), the
sequence event-under-`A`, `on_close(a)`, event-under-`B` moves the cursor to
`p` at the close; the second event appends exactly `B`'s header line and its
own event line (in particular `P`'s header is not re-rendered); and over the
whole sequence `P`'s header and `A`'s header are each rendered exactly
once. -/
theorem divergence_sibling_spans (H : Host) (fails : Nat → Bool) (l : Layer)
    (out : Out) (ev1 ev2 : Event) (a b p : Nat) (rest : List Nat)
    (ia ip ib : SpanInfo) (r1 r2 r3 : Layer × Out)
    (ha : ev1.scope = some (SpanRef.mk a (p :: rest)))
    (hb : ev2.scope = some (SpanRef.mk b (p :: rest)))
    (hia : l.infos a = some ia) (hianew : ia.new = true)
    (hip : l.infos p = some ip) (hipnew : ip.new = true)
    (hib : l.infos b = some ib)
    (hab : a ≠ b) (hap : a ≠ p) (hbp : b ≠ p)
    (har : a ∉ rest) (hbr : b ∉ rest) (hpr : p ∉ rest)
    (hr1 : r1 = on_event H fails l out ev1)
    (hr2 : r2 = on_close r1.1 r1.2 a (some (SpanRef.mk a (p :: rest))))
    (hr3 : r3 = on_event H fails r2.1 r2.2 ev2) :
    r2.1.last_span = p
    ∧ r3.2.map Prod.fst = r1.2.map Prod.fst
        ++ span_line H b (rest.length + 1) ib ib.new l.multiline
        ++ event_line ev2 (rest.length + 2) l.multiline l.timestamp
    ∧ headerCount p (r3.2.map Prod.fst) =
        headerCount p (out.map Prod.fst) + 1
    ∧ headerCount a (r3.2.map Prod.fst) =
        headerCount a (out.map Prod.fst) + 1 := by
  subst hr1
  subst hr2
  subst hr3
  obtain ⟨hlast1, hpafter, hother, hcp1, hca1⟩ := first_event_facts H fails l
    out ev1 a p rest ia ip ha hia hianew hip hipnew hap har hpr
  have hbnot : b ∉ a :: p :: rest := by
    intro hmem
    rcases List.mem_cons.1 hmem with he | hmem
    · exact hab he.symm
    · rcases List.mem_cons.1 hmem with he | hmem
      · exact hbp he
      · exact hbr hmem
  have hbafter : (on_event H fails l out ev1).1.infos b = some ib := by
    rw [hother b hbnot]
    exact hib
  have hd2 : eventDepth ev2 = rest.length + 2 := by
    unfold eventDepth
    rw [hb]
    rfl
  have hclose : on_close (on_event H fails l out ev1).1
      (on_event H fails l out ev1).2 a (some (SpanRef.mk a (p :: rest))) =
      ({ (on_event H fails l out ev1).1 with last_span := p },
        (on_event H fails l out ev1).2) := by
    unfold on_close
    rw [if_pos hlast1]
    rfl
  have h2nd := second_event_trace H fails
    ({ (on_event H fails l out ev1).1 with last_span := p })
    (on_event H fails l out ev1).2 ev2 b p rest ib (clearFlag ip) hb rfl
    hbafter hpafter rfl hbp
  rw [hd2, clamped_dec_eq] at h2nd
  refine ⟨?_, ?_, ?_, ?_⟩
  · rw [hclose]
  · rw [hclose]
    show (on_event H fails
        ({ (on_event H fails l out ev1).1 with last_span := p })
        (on_event H fails l out ev1).2 ev2).2.map Prod.fst = _
    exact h2nd
  · rw [hclose]
    show headerCount p ((on_event H fails
        ({ (on_event H fails l out ev1).1 with last_span := p })
        (on_event H fails l out ev1).2 ev2).2.map Prod.fst) = _
    rw [h2nd, headerCount_append, headerCount_append,
      headerCount_event_line, headerCount_span_line, if_neg hbp, hcp1]
  · rw [hclose]
    show headerCount a ((on_event H fails
        ({ (on_event H fails l out ev1).1 with last_span := p })
        (on_event H fails l out ev1).2 ev2).2.map Prod.fst) = _
    rw [h2nd, headerCount_append, headerCount_append,
      headerCount_event_line, headerCount_span_line,
      if_neg (Ne.symm hab), hca1]

/-- Witness for C2: with concrete siblings 1 and 3 under parent 2, closing
span 1 moves the cursor to the parent 2. -/
theorem divergence_sibling_spans_witness :
    (on_close (on_event (Host.mk (fun _ => "app") (fun _ => "work"))
        (fun _ => false)
        (Layer.mk false false false 0
          (fun x => if x = 1 then some (SpanInfo.mk 11 false [] true)
            else if x = 2 then some (SpanInfo.mk 12 false [] true)
            else if x = 3 then some (SpanInfo.mk 13 false [] true)
            else none))
        [] (Event.mk Level.info [] (some (SpanRef.mk 1 [2])))).1
      (on_event (Host.mk (fun _ => "app") (fun _ => "work"))
        (fun _ => false)
        (Layer.mk false false false 0
          (fun x => if x = 1 then some (SpanInfo.mk 11 false [] true)
            else if x = 2 then some (SpanInfo.mk 12 false [] true)
            else if x = 3 then some (SpanInfo.mk 13 false [] true)
            else none))
        [] (Event.mk Level.info [] (some (SpanRef.mk 1 [2])))).2
      1 (some (SpanRef.mk 1 [2]))).1.last_span = 2 :=
  (divergence_sibling_spans (Host.mk (fun _ => "app") (fun _ => "work"))
    (fun _ => false)
    (Layer.mk false false false 0
      (fun x => if x = 1 then some (SpanInfo.mk 11 false [] true)
        else if x = 2 then some (SpanInfo.mk 12 false [] true)
        else if x = 3 then some (SpanInfo.mk 13 false [] true)
        else none))
    [] (Event.mk Level.info [] (some (SpanRef.mk 1 [2])))
    (Event.mk Level.info [] (some (SpanRef.mk 3 [2])))
    1 3 2 [] (SpanInfo.mk 11 false [] true) (SpanInfo.mk 12 false [] true)
    (SpanInfo.mk 13 false [] true) _ _ _ rfl rfl rfl rfl rfl rfl rfl
    (by decide) (by decide) (by decide) (by decide) (by decide) (by decide)
    rfl rfl rfl).1

theorem fields_filterMap_msgVal (depth : Nat) (ml : Bool)
    (records : List (String × String)) :
    (records.filterMap (fun kv =>
        if kv.1 == "message" then none
        else some (if ml then W.fieldMulti (depth * 2 + 22) kv.1 kv.2
          else W.fieldInline kv.1 kv.2))).filterMap msgVal = [] := by
  rw [List.filterMap_eq_nil_iff]
  intro w hw
  rcases mem_span_fields depth ml records w hw with ⟨k, v, h | h⟩ <;>
    subst h <;> rfl

theorem fields_filterMap_fieldKV (depth : Nat) (ml : Bool)
    (records : List (String × String)) :
    (records.filterMap (fun kv =>
        if kv.1 == "message" then none
        else some (if ml then W.fieldMulti (depth * 2 + 22) kv.1 kv.2
          else W.fieldInline kv.1 kv.2))).filterMap fieldKV =
      records.filter (fun kv => !(kv.1 == "message")) := by
  induction records with
  | nil => rfl
  | cons kv t ih =>
    by_cases hm : (kv.1 == "message") = true
    · rw [List.filterMap_cons, List.filter_cons]
      simp only [hm, if_pos, Bool.not_true, if_neg]
      simpa using ih
    · rw [List.filterMap_cons, List.filter_cons]
      have hm' : (kv.1 == "message") = false := by
        cases h : kv.1 == "message"
        · rfl
        · exact absurd h hm
      rw [hm']
      simp only [Bool.not_false, if_neg, if_pos, Bool.false_eq_true,
        ite_false, ite_true]
      cases ml with
      | true =>
        rw [List.filterMap_cons]
        show (kv.1, kv.2) :: _ = kv :: _
        rw [ih]
      | false =>
        rw [List.filterMap_cons]
        show (kv.1, kv.2) :: _ = kv :: _
        rw [ih]

/-- Counterexample to C8 as stated: for a span captured with records
`[("message", "a"), ("message", "b")]`, the rendered header line is exactly
the header, the inline first message value, the marker, and the terminator —
the later field also named "message" is dropped entirely, not kept as an
ordinary trailing field. -/
theorem message_field_counterexample :
    span_line (Host.mk (fun _ => "app") (fun _ => "work")) 7 0
        (SpanInfo.mk 5 false [("message", "a"), ("message", "b")] true)
        true false =
      [W.spanHead 7 0 "app" "::" "work", W.spanMsg " " "a",
        W.spanArrow 7 true 5, W.line]
    ∧ W.fieldInline "message" "b" ∉
        span_line (Host.mk (fun _ => "app") (fun _ => "work")) 7 0
          (SpanInfo.mk 5 false [("message", "a"), ("message", "b")] true)
          true false := by
  constructor
  · decide
  · decide

/-- C8 amended: the header line shows inline the value of the first field
named "message" (found by linear scan, may sit anywhere), and the trailing
key:value segment lists, in original capture order, exactly the fields whose
name is not "message" — every field named "message", including later
duplicates, is omitted from the trailing segment. -/
theorem message_field_determinism (H : Host) (sid depth : Nat)
    (info : SpanInfo) (new multiline : Bool) :
    (span_line H sid depth info new multiline).filterMap msgVal =
      (match info.records.find? (fun kv => kv.1 == "message") with
        | some kv => [kv.2]
        | none => [])
    ∧ (span_line H sid depth info new multiline).filterMap fieldKV =
      info.records.filter (fun kv => !(kv.1 == "message")) := by
  have c1 : (if info.date_time then [W.ts] else [] : List W).filterMap
      msgVal = [] := by
    split <;> rfl
  have c2 : ([W.spanHead sid (depth * 2) (H.target sid)
      (if H.target sid = "" ∨ H.name sid = "" then "" else "::")
      (H.name sid)]).filterMap msgVal = [] := rfl
  have c3 : (match info.records.find?
        (fun kv : String × String => kv.1 == "message") with
      | some kv => [W.spanMsg
          (if H.target sid = "" ∧ H.name sid = "" then "" else " ") kv.2]
      | none => []).filterMap msgVal =
      (match info.records.find?
          (fun kv : String × String => kv.1 == "message") with
        | some kv => [kv.2]
        | none => []) := by
    cases info.records.find? (fun kv : String × String => kv.1 == "message") <;>
      rfl
  have c4 : ([W.spanArrow sid new info.id]).filterMap msgVal = [] := rfl
  have c5 := fields_filterMap_msgVal depth multiline info.records
  have c6 : ([W.line]).filterMap msgVal = [] := rfl
  have d1 : (if info.date_time then [W.ts] else [] : List W).filterMap
      fieldKV = [] := by
    split <;> rfl
  have d2 : ([W.spanHead sid (depth * 2) (H.target sid)
      (if H.target sid = "" ∨ H.name sid = "" then "" else "::")
      (H.name sid)]).filterMap fieldKV = [] := rfl
  have d3 : (match info.records.find?
        (fun kv : String × String => kv.1 == "message") with
      | some kv => [W.spanMsg
          (if H.target sid = "" ∧ H.name sid = "" then "" else " ") kv.2]
      | none => []).filterMap fieldKV = [] := by
    cases info.records.find? (fun kv : String × String => kv.1 == "message") <;>
      rfl
  have d4 : ([W.spanArrow sid new info.id]).filterMap fieldKV = [] := rfl
  have d5 := fields_filterMap_fieldKV depth multiline info.records
  have d6 : ([W.line]).filterMap fieldKV = [] := rfl
  constructor
  · unfold span_line
    simp only [List.filterMap_append]
    rw [c1, c2, c3, c4, c5, c6]
    simp
  · unfold span_line
    simp only [List.filterMap_append]
    rw [d1, d2, d3, d4, d5, d6]
    simp

end Treetrace
